import Mathlib

/-!
# Verification of the DARE-DREAMERS scoring and aggregation subsystem

Shallow embedding of the candidate-scoring pipeline of this repository:

* the four platform metric calculators
  (`GitHubConnector.calculateMetrics`, `TwitterConnector.calculateMetrics`,
  `BlogConnector.calculateMetrics`, `LinkedInConnector.calculateMetrics`),
* the aggregation service (`AggregationService.calculateCompositeScore`,
  `calculateAndStoreScore`, `getScoreHistory`, `setWeights`, `getWeights`),
* the change-detection layer (`ScoreUpdateService.onPlatformDataChanged`).

Modelling conventions:

* JavaScript numbers are modelled as `ℚ` (every computation in the embedded
  code is exact small-denominator rational arithmetic); counts are `ℕ` and
  are cast into `ℚ` inside formulas.
* `Math.round` is `jsRound`, `Math.min`/`Math.max` are `min`/`max`,
  the ternary `c ? a : b` is `if c then a else b`.
* `Date` values are modelled as epoch-milliseconds (`ℚ` or `ℤ`); the
  wall-clock moments the code reads (`new Date()` for the six-month
  activity window, the database insertion clock) are explicit parameters.
* The Prisma database is modelled as an explicit record store with an
  insertion clock; `async` functions become pure state-passing functions.
* The `breakdown` maps of raw statistics inside the per-platform metrics
  records (total posts, top tags/hashtags/languages, ...) are not read by
  the aggregation service, the scoring engine or any claim; they are
  omitted from the embedded metrics records.
-/

/-- JavaScript `Math.round`: rounds half-up, `Math.round x = ⌊x + 1/2⌋`. -/
def jsRound (q : ℚ) : ℤ := ⌊q + 1/2⌋

theorem jsRound_mono {a b : ℚ} (h : a ≤ b) : jsRound a ≤ jsRound b :=
  Int.floor_le_floor (by linarith)

theorem jsRound_intCast (n : ℤ) : jsRound (n : ℚ) = n := by
  unfold jsRound
  rw [Int.floor_eq_iff]
  constructor <;> [push_cast; push_cast] <;> linarith

theorem jsRound_nonneg {a : ℚ} (h : 0 ≤ a) : 0 ≤ jsRound a := by
  have h0 : jsRound (0 : ℚ) = 0 := by simpa using jsRound_intCast 0
  calc (0 : ℤ) = jsRound 0 := h0.symm
    _ ≤ jsRound a := jsRound_mono h

theorem jsRound_le_of_le {a : ℚ} {n : ℤ} (h : a ≤ n) : jsRound a ≤ n := by
  calc jsRound a ≤ jsRound (n : ℚ) := jsRound_mono h
    _ = n := jsRound_intCast n

theorem jsRound_mem_Icc {a : ℚ} (h0 : 0 ≤ a) (h1 : a ≤ 100) :
    0 ≤ jsRound a ∧ jsRound a ≤ 100 :=
  ⟨jsRound_nonneg h0, jsRound_le_of_le (by exact_mod_cast h1)⟩

/-- First-occurrence, order-preserving deduplication with an accumulator of
already seen strings: the semantics of the JavaScript idiom
`[...new Set(xs)]`. -/
def dedupSeen (seen : List String) : List String → List String
  | [] => []
  | x :: xs =>
    if seen.contains x then dedupSeen seen xs
    else x :: dedupSeen (x :: seen) xs

def dedupKeepFirst (l : List String) : List String := dedupSeen [] l

theorem dedupSeen_mem : ∀ (l : List String) (seen : List String) (x : String),
    x ∈ dedupSeen seen l → x ∈ l ∧ x ∉ seen := by
  intro l
  induction l with
  | nil => intro seen x h; simp [dedupSeen] at h
  | cons y ys ih =>
    intro seen x h
    simp only [dedupSeen] at h
    by_cases hy : seen.contains y
    · rw [if_pos hy] at h
      obtain ⟨h1, h2⟩ := ih seen x h
      exact ⟨List.mem_cons_of_mem _ h1, h2⟩
    · rw [if_neg hy] at h
      rcases List.mem_cons.mp h with rfl | h
      · refine ⟨List.mem_cons_self _ _, ?_⟩
        intro hseen
        exact hy (List.elem_eq_true_of_mem hseen)
      · obtain ⟨h1, h2⟩ := ih (y :: seen) x h
        refine ⟨List.mem_cons_of_mem _ h1, ?_⟩
        intro hseen
        exact h2 (List.mem_cons_of_mem _ hseen)

theorem dedupSeen_nodup : ∀ (l : List String) (seen : List String),
    (dedupSeen seen l).Nodup := by
  intro l
  induction l with
  | nil => intro seen; simp [dedupSeen]
  | cons y ys ih =>
    intro seen
    simp only [dedupSeen]
    by_cases hy : seen.contains y
    · rw [if_pos hy]; exact ih seen
    · rw [if_neg hy]
      refine List.nodup_cons.mpr ⟨?_, ih (y :: seen)⟩
      intro hmem
      exact (dedupSeen_mem ys (y :: seen) y hmem).2 (List.mem_cons_self _ _)

theorem dedupKeepFirst_nodup (l : List String) : (dedupKeepFirst l).Nodup :=
  dedupSeen_nodup l []

/-- Saturating threshold terms `x >= t ? cap : f x` are monotone whenever the
linear part `f` is monotone and stays below the cap left of the threshold. -/
theorem satTerm_mono {t cap x y : ℚ} (f : ℚ → ℚ)
    (hf : ∀ a b, a ≤ b → f a ≤ f b) (hcap : ∀ z, z < t → f z ≤ cap)
    (hxy : x ≤ y) :
    (if t ≤ x then cap else f x) ≤ (if t ≤ y then cap else f y) := by
  split_ifs with h1 h2 h2
  · exact le_refl _
  · exact absurd (le_trans h1 hxy) h2
  · exact hcap x (lt_of_not_le h1)
  · exact hf x y hxy

theorem satTerm_nonneg {t cap x : ℚ} (f : ℚ → ℚ)
    (hcap : 0 ≤ cap) (hfx : 0 ≤ f x) :
    0 ≤ (if t ≤ x then cap else f x) := by
  split_ifs <;> assumption

theorem min100_nonneg {x : ℚ} (h : 0 ≤ x) : 0 ≤ min x 100 :=
  le_min h (by norm_num)

theorem min100_le (x : ℚ) : min x 100 ≤ 100 := min_le_right _ _

theorem min100_mem_Icc {x : ℚ} (h : 0 ≤ x) : 0 ≤ min x 100 ∧ min x 100 ≤ 100 :=
  ⟨min100_nonneg h, min100_le x⟩

/-- Characters-list version of string prefix test (kernel-reducible). -/
def charsPre : List Char → List Char → Bool
  | [], _ => true
  | _ :: _, [] => false
  | a :: as, b :: bs => a == b && charsPre as bs

/-- Characters-list version of a substring test (kernel-reducible). -/
def charsSub (pat : List Char) : List Char → Bool
  | [] => charsPre pat []
  | b :: bs => charsPre pat (b :: bs) || charsSub pat bs

/-- JavaScript `String.prototype.includes`. -/
def jsIncludes (s pat : String) : Bool := charsSub pat.data s.data

/-- JavaScript `String.prototype.toLowerCase`, character-wise
(kernel-reducible rendering of `String.toLower`). -/
def jsToLower (s : String) : String := ⟨s.data.map Char.toLower⟩

/-- JavaScript `keyword.replace(/\s+/g, '')` on the keyword dictionary:
removes the (space) whitespace characters. -/
def jsStripSpaces (s : String) : String := ⟨s.data.filter (fun c => c ≠ ' ')⟩

/-! ## GitHub connector (`src/server/src/services/connectors/github.connector.ts`)

`GitHubConnector.calculateMetrics(profile, repositories, contributionStats)`.
The wall-clock moment `sixMonthsAgo` (computed from `new Date()` in the
source) is an explicit parameter; repository `pushedAt` dates are epoch
milliseconds. JavaScript truthiness of `r.description` / `r.license`
(null or absent) is modelled by `Option`. -/

namespace GitHubConnector

structure GitHubUserProfile where
  followers : ℕ
  bio : Option String

structure GitHubRepository where
  description : Option String
  license : Option String
  topics : List String
  stargazersCount : ℕ
  forksCount : ℕ
  isForked : Bool
  languages : List (String × ℕ)
  pushedAt : ℤ

structure GitHubContributionStats where
  totalCommits : ℕ
  totalPRs : ℕ
  totalIssues : ℕ
  totalReviews : ℕ

structure GitHubMetrics where
  codeQualityScore : ℤ
  languageDiversity : ℤ
  commitFrequency : ℤ
  collaborationScore : ℤ
  projectImpactScore : ℤ
  overallScore : ℤ
  recommendations : List String

/-- `repositories.filter(r => !r.isForked)`. -/
def ownRepos (repositories : List GitHubRepository) : List GitHubRepository :=
  repositories.filter (fun r => !r.isForked)

/-- Cardinality of the `Set` of language names over the own repos. -/
def uniqueLanguagesCount (own : List GitHubRepository) : ℕ :=
  (dedupKeepFirst (own.flatMap (fun r => r.languages.map Prod.fst))).length

/-- `Math.min(uniqueLanguages.length / 10, 1) * 100`. -/
def languageDiversity (own : List GitHubRepository) : ℚ :=
  min ((uniqueLanguagesCount own : ℚ) / 10) 1 * 100

def totalStars (own : List GitHubRepository) : ℕ :=
  (own.map (fun r => r.stargazersCount)).sum

def totalForks (own : List GitHubRepository) : ℕ :=
  (own.map (fun r => r.forksCount)).sum

/-- `ownRepos.filter(r => r.description).length`. -/
def hasReadme (own : List GitHubRepository) : ℕ :=
  (own.filter (fun r => r.description.isSome)).length

/-- `ownRepos.filter(r => r.license).length`. -/
def hasLicense (own : List GitHubRepository) : ℕ :=
  (own.filter (fun r => r.license.isSome)).length

/-- `ownRepos.filter(r => r.topics.length > 0).length`. -/
def hasTopics (own : List GitHubRepository) : ℕ :=
  (own.filter (fun r => decide (r.topics ≠ []))).length

/-- Code quality: description/license/topic ratios plus star saturation. -/
def codeQualityScore (own : List GitHubRepository) : ℚ :=
  min (((hasReadme own : ℚ) / max (own.length : ℚ) 1) * 30 +
       ((hasLicense own : ℚ) / max (own.length : ℚ) 1) * 20 +
       ((hasTopics own : ℚ) / max (own.length : ℚ) 1) * 20 +
       min ((totalStars own : ℚ) / 100) 1 * 30) 100

/-- `Math.min((totalCommits / 365) * 10, 100)`. -/
def commitFrequency (stats : GitHubContributionStats) : ℚ :=
  min (((stats.totalCommits : ℚ) / 365) * 10) 100

def collaborationScore (stats : GitHubContributionStats) : ℚ :=
  min ((stats.totalPRs : ℚ) / 50 * 40 +
       (stats.totalReviews : ℚ) / 50 * 30 +
       (stats.totalIssues : ℚ) / 100 * 30) 100

def projectImpactScore (profile : GitHubUserProfile)
    (own : List GitHubRepository) : ℚ :=
  min ((totalStars own : ℚ) / 100 * 40 +
       (totalForks own : ℚ) / 50 * 30 +
       (profile.followers : ℚ) / 100 * 30) 100

/-- Repos with `pushedAt` after the six-month cutoff. -/
def activeRepos (own : List GitHubRepository) (sixMonthsAgo : ℤ) : ℕ :=
  (own.filter (fun r => decide (sixMonthsAgo < r.pushedAt))).length

/-- The weighted blend before `Math.round`:
`codeQuality*0.25 + languageDiversity*0.15 + commitFrequency*0.25 +
collaboration*0.2 + projectImpact*0.15`. -/
def overallScoreQ (profile : GitHubUserProfile)
    (own : List GitHubRepository) (stats : GitHubContributionStats) : ℚ :=
  codeQualityScore own * (25/100) +
  languageDiversity own * (15/100) +
  commitFrequency stats * (25/100) +
  collaborationScore stats * (20/100) +
  projectImpactScore profile own * (15/100)

def githubRecommendations (profile : GitHubUserProfile)
    (own : List GitHubRepository) (stats : GitHubContributionStats)
    (sixMonthsAgo : ℤ) : List String :=
  (if languageDiversity own < 50 then
    ["Explore more programming languages to increase diversity"] else []) ++
  (if (hasReadme own : ℚ) < (own.length : ℚ) * (80/100) then
    ["Add descriptions to more of your repositories"] else []) ++
  (if (hasLicense own : ℚ) < (own.length : ℚ) * (50/100) then
    ["Add licenses to your repositories"] else []) ++
  (if commitFrequency stats < 50 then
    ["Maintain consistent commit activity"] else []) ++
  (if collaborationScore stats < 50 then
    ["Contribute to other projects through PRs and code reviews"] else []) ++
  (if activeRepos own sixMonthsAgo < 3 then
    ["Keep more projects actively maintained"] else []) ++
  (if profile.bio = none then
    ["Add a bio to your GitHub profile"] else [])

/-- `GitHubConnector.calculateMetrics`. -/
def calculateMetrics (profile : GitHubUserProfile)
    (repositories : List GitHubRepository)
    (contributionStats : GitHubContributionStats)
    (sixMonthsAgo : ℤ) : GitHubMetrics :=
  let own := ownRepos repositories
  { codeQualityScore := jsRound (codeQualityScore own)
    languageDiversity := jsRound (languageDiversity own)
    commitFrequency := jsRound (commitFrequency contributionStats)
    collaborationScore := jsRound (collaborationScore contributionStats)
    projectImpactScore := jsRound (projectImpactScore profile own)
    overallScore := jsRound (overallScoreQ profile own contributionStats)
    recommendations :=
      githubRecommendations profile own contributionStats sixMonthsAgo }

theorem ghCodeQualityScore_nonneg (own : List GitHubRepository) :
    0 ≤ codeQualityScore own := by
  unfold codeQualityScore
  apply min100_nonneg
  have h1 : (0:ℚ) ≤ (hasReadme own : ℚ) / max (own.length : ℚ) 1 := by positivity
  have h2 : (0:ℚ) ≤ (hasLicense own : ℚ) / max (own.length : ℚ) 1 := by positivity
  have h3 : (0:ℚ) ≤ (hasTopics own : ℚ) / max (own.length : ℚ) 1 := by positivity
  have h4 : (0:ℚ) ≤ min ((totalStars own : ℚ) / 100) 1 := by positivity
  linarith

theorem ghLanguageDiversity_nonneg (own : List GitHubRepository) :
    0 ≤ languageDiversity own := by
  unfold languageDiversity
  have h : (0:ℚ) ≤ min ((uniqueLanguagesCount own : ℚ) / 10) 1 := by positivity
  linarith

theorem ghLanguageDiversity_le (own : List GitHubRepository) :
    languageDiversity own ≤ 100 := by
  unfold languageDiversity
  have h : min ((uniqueLanguagesCount own : ℚ) / 10) 1 ≤ 1 := min_le_right _ _
  linarith

theorem ghCommitFrequency_nonneg (stats : GitHubContributionStats) :
    0 ≤ commitFrequency stats := by
  unfold commitFrequency
  apply min100_nonneg
  positivity

theorem ghCollaborationScore_nonneg (stats : GitHubContributionStats) :
    0 ≤ collaborationScore stats := by
  unfold collaborationScore
  apply min100_nonneg
  positivity

theorem ghProjectImpactScore_nonneg (profile : GitHubUserProfile)
    (own : List GitHubRepository) : 0 ≤ projectImpactScore profile own := by
  unfold projectImpactScore
  apply min100_nonneg
  positivity

theorem ghOverallScoreQ_bounds (profile : GitHubUserProfile)
    (own : List GitHubRepository) (stats : GitHubContributionStats) :
    0 ≤ overallScoreQ profile own stats ∧ overallScoreQ profile own stats ≤ 100 := by
  have hcq := ghCodeQualityScore_nonneg own
  have hcq' := min100_le ((hasReadme own : ℚ) / max (own.length : ℚ) 1 * 30 +
       (hasLicense own : ℚ) / max (own.length : ℚ) 1 * 20 +
       (hasTopics own : ℚ) / max (own.length : ℚ) 1 * 20 +
       min ((totalStars own : ℚ) / 100) 1 * 30)
  have hld := ghLanguageDiversity_nonneg own
  have hld' := ghLanguageDiversity_le own
  have hcf := ghCommitFrequency_nonneg stats
  have hcf' := min100_le (((stats.totalCommits : ℚ) / 365) * 10)
  have hcs := ghCollaborationScore_nonneg stats
  have hcs' := min100_le ((stats.totalPRs : ℚ) / 50 * 40 +
       (stats.totalReviews : ℚ) / 50 * 30 + (stats.totalIssues : ℚ) / 100 * 30)
  have hpi := ghProjectImpactScore_nonneg profile own
  have hpi' := min100_le ((totalStars own : ℚ) / 100 * 40 +
       (totalForks own : ℚ) / 50 * 30 + (profile.followers : ℚ) / 100 * 30)
  unfold overallScoreQ
  unfold codeQualityScore at hcq ⊢
  unfold commitFrequency at hcf ⊢
  unfold collaborationScore at hcs ⊢
  unfold projectImpactScore at hpi ⊢
  constructor <;> linarith

end GitHubConnector

/-! ## Twitter connector (`src/server/src/services/connectors/twitter.connector.ts`)

`TwitterConnector.calculateMetrics(profile, tweets)`. Tweet `createdAt`
dates are epoch milliseconds. The source sorts the original tweets by
`createdAt` ascending and reads the timestamps of the first and the last
element; these are the minimum and the maximum timestamp, which is how
`firstCreatedAt`/`lastCreatedAt` are rendered below. -/

namespace TwitterConnector

structure TwitterProfile where
  bio : Option String
  followers : ℕ
  following : ℕ
  tweetCount : ℕ
  listedCount : ℕ
  verified : Bool

structure TwitterTweet where
  text : String
  createdAtMs : ℚ
  likes : ℕ
  retweets : ℕ
  replies : ℕ
  quotes : ℕ
  isRetweet : Bool
  isReply : Bool
  hashtags : List String

structure TwitterMetrics where
  engagementScore : ℚ
  technicalContentScore : ℚ
  influenceScore : ℚ
  consistencyScore : ℚ
  overallScore : ℚ
  recommendations : List String

/-- The `TECH_KEYWORDS` dictionary. -/
def TECH_KEYWORDS : List String :=
  ["javascript", "typescript", "python", "java", "rust", "golang", "react",
   "vue", "angular", "nodejs", "docker", "kubernetes", "aws", "azure", "gcp",
   "api", "database", "sql", "nosql", "mongodb", "postgresql", "redis",
   "git", "github", "gitlab", "cicd", "devops", "agile", "scrum",
   "machine learning", "ai", "ml", "deep learning", "neural network",
   "frontend", "backend", "fullstack", "microservices", "serverless",
   "programming", "coding", "developer", "software", "engineering",
   "algorithm", "data structure", "open source", "code review"]

/-- `TwitterConnector.isTechnicalTweet`. -/
def isTechnicalTweet (t : TwitterTweet) : Bool :=
  let text := jsToLower t.text
  let hashtags := t.hashtags.map jsToLower
  TECH_KEYWORDS.any (fun keyword =>
    jsIncludes text keyword || hashtags.contains (jsStripSpaces keyword))

/-- `tweets.filter(t => !t.isRetweet)`. -/
def originalTweets (tweets : List TwitterTweet) : List TwitterTweet :=
  tweets.filter (fun t => !t.isRetweet)

def totalLikes (orig : List TwitterTweet) : ℕ :=
  (orig.map (fun t => t.likes)).sum

def totalRetweets (orig : List TwitterTweet) : ℕ :=
  (orig.map (fun t => t.retweets)).sum

def avgLikes (orig : List TwitterTweet) : ℚ :=
  (totalLikes orig : ℚ) / (orig.length : ℚ)

def avgRetweets (orig : List TwitterTweet) : ℚ :=
  (totalRetweets orig : ℚ) / (orig.length : ℚ)

/-- `totalEngagement = totalLikes + totalRetweets * 2`. -/
def totalEngagement (orig : List TwitterTweet) : ℕ :=
  totalLikes orig + totalRetweets orig * 2

/-- `(totalEngagement / originalTweets.length / followers) * 100` when
`followers > 0`, else `0`. -/
def engagementRate (profile : TwitterProfile) (orig : List TwitterTweet) : ℚ :=
  if 0 < profile.followers then
    (totalEngagement orig : ℚ) / (orig.length : ℚ) / (profile.followers : ℚ) * 100
  else 0

def technicalTweetRatio (orig : List TwitterTweet) : ℚ :=
  ((orig.filter isTechnicalTweet).length : ℚ) / (orig.length : ℚ)

def engagementScore (profile : TwitterProfile) (orig : List TwitterTweet) : ℚ :=
  min ((if 10 ≤ avgLikes orig then 40 else avgLikes orig * 4) +
       (if 5 ≤ avgRetweets orig then 30 else avgRetweets orig * 6) +
       (if 1 ≤ engagementRate profile orig then 30
        else engagementRate profile orig * 30)) 100

def technicalContentScore (orig : List TwitterTweet) : ℚ :=
  min (technicalTweetRatio orig * 100) 100

def influenceScore (profile : TwitterProfile) : ℚ :=
  min ((if 10000 ≤ profile.followers then 40
        else (profile.followers : ℚ) / 10000 * 40) +
       (if 100 ≤ profile.listedCount then 30
        else (profile.listedCount : ℚ) / 100 * 30) +
       (if profile.verified then 30 else 0)) 100

/-- Minimum `createdAt` over a tweet list (the timestamp of the first
element of the ascending sort). -/
def firstCreatedAt (orig : List TwitterTweet) : ℚ :=
  match orig.map (fun t => t.createdAtMs) with
  | [] => 0
  | q :: qs => qs.foldl min q

/-- Maximum `createdAt` over a tweet list (the timestamp of the last
element of the ascending sort). -/
def lastCreatedAt (orig : List TwitterTweet) : ℚ :=
  match orig.map (fun t => t.createdAtMs) with
  | [] => 0
  | q :: qs => qs.foldl max q

/-- `tweetsPerWeek`: `0` unless at least two original tweets exist. -/
def tweetsPerWeek (orig : List TwitterTweet) : ℚ :=
  if 2 ≤ orig.length then
    (orig.length : ℚ) /
      (max 1 ((lastCreatedAt orig - firstCreatedAt orig) / (1000*60*60*24*7)))
  else 0

def consistencyScore (orig : List TwitterTweet) : ℚ :=
  min (if 7 ≤ tweetsPerWeek orig then 100 else tweetsPerWeek orig * 14) 100

def overallScoreQ (profile : TwitterProfile) (orig : List TwitterTweet) : ℚ :=
  engagementScore profile orig * (30/100) +
  technicalContentScore orig * (25/100) +
  influenceScore profile * (25/100) +
  consistencyScore orig * (20/100)

def twitterRecommendations (profile : TwitterProfile)
    (orig : List TwitterTweet) (topHashtagsLength : ℕ) : List String :=
  (if technicalTweetRatio orig < (30/100) then
    ["Share more technical content to establish expertise"] else []) ++
  (if avgLikes orig < 5 then
    ["Engage more with the community to increase visibility"] else []) ++
  (if tweetsPerWeek orig < 3 then
    ["Tweet more consistently to grow your audience"] else []) ++
  (if topHashtagsLength < 3 then
    ["Use relevant hashtags to reach a wider audience"] else []) ++
  (if profile.bio = none then
    ["Add a bio to your Twitter profile"] else [])

/-- Number of distinct (lower-cased) hashtags over the original tweets,
the length of `topHashtags` is `min` of this and `5` (`slice(0, 5)`). -/
def distinctHashtagsCount (orig : List TwitterTweet) : ℕ :=
  (dedupKeepFirst (orig.flatMap (fun t => t.hashtags.map jsToLower))).length

/-- `TwitterConnector.calculateMetrics`. -/
def calculateMetrics (profile : TwitterProfile)
    (tweets : List TwitterTweet) : TwitterMetrics :=
  let orig := originalTweets tweets
  if orig.length = 0 then
    { engagementScore := 0
      technicalContentScore := 0
      influenceScore := min ((profile.followers : ℚ) / 1000 * 20) 100
      consistencyScore := 0
      overallScore := min ((profile.followers : ℚ) / 1000 * 5) 25
      recommendations := ["Tweet more to build your social presence"] }
  else
    { engagementScore := (jsRound (engagementScore profile orig) : ℚ)
      technicalContentScore := (jsRound (technicalContentScore orig) : ℚ)
      influenceScore := (jsRound (influenceScore profile) : ℚ)
      consistencyScore := (jsRound (consistencyScore orig) : ℚ)
      overallScore := (jsRound (overallScoreQ profile orig) : ℚ)
      recommendations :=
        twitterRecommendations profile orig (min (distinctHashtagsCount orig) 5) }

end TwitterConnector

/-! ## Blog connector (`BlogConnector.calculateMetrics`)

Shared by the Dev.to / Hashnode / Medium providers. Post `publishedAt`
dates are epoch milliseconds; the source sorts posts by `publishedAt`
ascending and reads the first and last timestamps (rendered as min/max).
JavaScript truthiness of `p.excerpt` (null) is modelled by `Option`. -/

namespace BlogConnector

structure BlogProfile where
  followers : ℕ

structure BlogPost where
  excerpt : Option String
  tags : List String
  publishedAtMs : ℚ
  readingTime : ℕ
  reactions : ℕ
  comments : ℕ
  coverImage : Option String

structure BlogMetrics where
  contentQualityScore : ℚ
  consistencyScore : ℚ
  engagementScore : ℚ
  topicDiversityScore : ℚ
  overallScore : ℚ
  recommendations : List String

def totalReactions (posts : List BlogPost) : ℕ :=
  (posts.map (fun p => p.reactions)).sum

def totalComments (posts : List BlogPost) : ℕ :=
  (posts.map (fun p => p.comments)).sum

def totalReadingTime (posts : List BlogPost) : ℕ :=
  (posts.map (fun p => p.readingTime)).sum

def avgReadingTime (posts : List BlogPost) : ℚ :=
  (totalReadingTime posts : ℚ) / (posts.length : ℚ)

/-- Minimum `publishedAt` (first element of the ascending sort). -/
def firstPublishedAt (posts : List BlogPost) : ℚ :=
  match posts.map (fun p => p.publishedAtMs) with
  | [] => 0
  | q :: qs => qs.foldl min q

/-- Maximum `publishedAt` (last element of the ascending sort). -/
def lastPublishedAt (posts : List BlogPost) : ℚ :=
  match posts.map (fun p => p.publishedAtMs) with
  | [] => 0
  | q :: qs => qs.foldl max q

/-- `Math.max(1, (lastPost - firstPost) / (1000*60*60*24*30))`. -/
def monthsActive (posts : List BlogPost) : ℚ :=
  max 1 ((lastPublishedAt posts - firstPublishedAt posts) / (1000*60*60*24*30))

def postsPerMonth (posts : List BlogPost) : ℚ :=
  (posts.length : ℚ) / monthsActive posts

/-- Number of distinct tags (`Object.keys(tagCounts).length`). -/
def uniqueTags (posts : List BlogPost) : ℕ :=
  (dedupKeepFirst (posts.flatMap (fun p => p.tags))).length

/-- Posts with a cover image. -/
def coverImageCount (posts : List BlogPost) : ℕ :=
  (posts.filter (fun p => p.coverImage.isSome)).length

/-- Posts whose excerpt exists and has length `> 50`. -/
def goodExcerptCount (posts : List BlogPost) : ℕ :=
  (posts.filter (fun p =>
    match p.excerpt with
    | some e => decide (50 < e.length)
    | none => false)).length

def contentQualityScore (posts : List BlogPost) : ℚ :=
  min ((if 3 ≤ avgReadingTime posts then 30 else avgReadingTime posts * 10) +
       ((coverImageCount posts : ℚ) / (posts.length : ℚ)) * 20 +
       ((goodExcerptCount posts : ℚ) / (posts.length : ℚ)) * 20 +
       min ((posts.length : ℚ) / 20) 1 * 30) 100

def consistencyScore (posts : List BlogPost) : ℚ :=
  min (if 4 ≤ postsPerMonth posts then 100 else postsPerMonth posts * 25) 100

def engagementScore (profile : BlogProfile) (posts : List BlogPost) : ℚ :=
  min ((if 10 ≤ (totalReactions posts : ℚ) / (posts.length : ℚ) then 40
        else (totalReactions posts : ℚ) / (posts.length : ℚ) * 4) +
       (if 5 ≤ (totalComments posts : ℚ) / (posts.length : ℚ) then 30
        else (totalComments posts : ℚ) / (posts.length : ℚ) * 6) +
       (if 100 ≤ profile.followers then 30
        else (profile.followers : ℚ) * (3/10))) 100

def topicDiversityScore (posts : List BlogPost) : ℚ :=
  min ((uniqueTags posts : ℚ) / 10 * 100) 100

def overallScoreQ (profile : BlogProfile) (posts : List BlogPost) : ℚ :=
  contentQualityScore posts * (30/100) +
  consistencyScore posts * (25/100) +
  engagementScore profile posts * (30/100) +
  topicDiversityScore posts * (15/100)

def blogRecommendations (posts : List BlogPost) : List String :=
  (if postsPerMonth posts < 2 then
    ["Write more frequently to maintain reader engagement"] else []) ++
  (if avgReadingTime posts < 3 then
    ["Write longer, more in-depth articles"] else []) ++
  (if uniqueTags posts < 5 then
    ["Cover more diverse topics to reach a wider audience"] else []) ++
  (if (coverImageCount posts : ℚ) < (posts.length : ℚ) * (80/100) then
    ["Add cover images to more of your posts"] else []) ++
  (if (totalReactions posts : ℚ) / (posts.length : ℚ) < 5 then
    ["Engage with the community to increase your reactions"] else [])

/-- `BlogConnector.calculateMetrics`. -/
def calculateMetrics (profile : BlogProfile)
    (posts : List BlogPost) : BlogMetrics :=
  if posts.length = 0 then
    { contentQualityScore := 0
      consistencyScore := 0
      engagementScore := 0
      topicDiversityScore := 0
      overallScore := 0
      recommendations := ["Start writing blog posts to build your content portfolio"] }
  else
    { contentQualityScore := (jsRound (contentQualityScore posts) : ℚ)
      consistencyScore := (jsRound (consistencyScore posts) : ℚ)
      engagementScore := (jsRound (engagementScore profile posts) : ℚ)
      topicDiversityScore := (jsRound (topicDiversityScore posts) : ℚ)
      overallScore := (jsRound (overallScoreQ profile posts) : ℚ)
      recommendations := blogRecommendations posts }

end BlogConnector

/-! ## LinkedIn connector (`LinkedInConnector.calculateMetrics`)

Experience date arithmetic: the source computes for every position
`(end.getFullYear() - start.getFullYear()) * 12 + (end.getMonth() -
start.getMonth())` where the end is `new Date()` for current positions;
each position is modelled by its start (year, month) and an optional end
(year, month), with the current wall-clock (year, month) an explicit
parameter. -/

namespace LinkedInConnector

structure LinkedInProfile where
  headline : Option String
  bio : Option String
  connections : ℕ

structure LinkedInExperience where
  startYear : ℤ
  startMonth : ℤ
  endDate : Option (ℤ × ℤ)
  description : Option String

structure LinkedInEducation where
  degree : Option String
  fieldOfStudy : Option String

structure LinkedInSkill where
  name : String
  endorsements : ℕ

structure LinkedInCertification where
  name : String

structure LinkedInMetrics where
  experienceScore : ℚ
  educationScore : ℚ
  skillsScore : ℚ
  networkScore : ℚ
  overallScore : ℚ
  recommendations : List String

/-- Months covered by one position, floored at 0 (`Math.max(0, months)`). -/
def experienceMonths (now : ℤ × ℤ) (e : LinkedInExperience) : ℤ :=
  let endYM := e.endDate.getD now
  max 0 ((endYM.1 - e.startYear) * 12 + (endYM.2 - e.startMonth))

def totalMonths (now : ℤ × ℤ) (experiences : List LinkedInExperience) : ℤ :=
  (experiences.map (experienceMonths now)).sum

/-- `Math.round(totalMonths / 12 * 10) / 10`. -/
def yearsOfExperience (now : ℤ × ℤ)
    (experiences : List LinkedInExperience) : ℚ :=
  (jsRound ((totalMonths now experiences : ℚ) / 12 * 10) : ℚ) / 10

def withDescriptionCount (experiences : List LinkedInExperience) : ℕ :=
  (experiences.filter (fun e => e.description.isSome)).length

def experienceScore (now : ℤ × ℤ)
    (experiences : List LinkedInExperience) : ℚ :=
  min ((if 5 ≤ yearsOfExperience now experiences then 40
        else yearsOfExperience now experiences * 8) +
       (if 3 ≤ experiences.length then 30 else (experiences.length : ℚ) * 10) +
       ((withDescriptionCount experiences : ℚ) /
          max (experiences.length : ℚ) 1) * 30) 100

/-- `degree?.toLowerCase().includes('master' | 'phd' | 'mba')`. -/
def isAdvancedDegree (e : LinkedInEducation) : Bool :=
  match e.degree with
  | some d =>
      jsIncludes (jsToLower d) "master" || jsIncludes (jsToLower d) "phd" ||
      jsIncludes (jsToLower d) "mba"
  | none => false

def educationScore (education : List LinkedInEducation) : ℚ :=
  min ((if 1 ≤ education.length then (40:ℚ) else 0) +
       (if education.any isAdvancedDegree then 30 else 0) +
       (if education.any (fun e => e.fieldOfStudy.isSome) then 30 else 0)) 100

def endorsementSum (skills : List LinkedInSkill) : ℕ :=
  (skills.map (fun s => s.endorsements)).sum

def skillsScore (skills : List LinkedInSkill) : ℚ :=
  min ((if 10 ≤ skills.length then 50 else (skills.length : ℚ) * 5) +
       (if 50 ≤ endorsementSum skills then 50
        else (endorsementSum skills : ℚ))) 100

def networkScore (profile : LinkedInProfile) : ℚ :=
  min (if 500 ≤ profile.connections then 100
       else (profile.connections : ℚ) / 5) 100

def overallScoreQ (now : ℤ × ℤ) (profile : LinkedInProfile)
    (experiences : List LinkedInExperience)
    (education : List LinkedInEducation)
    (skills : List LinkedInSkill) : ℚ :=
  experienceScore now experiences * (35/100) +
  educationScore education * (20/100) +
  skillsScore skills * (25/100) +
  networkScore profile * (20/100)

def linkedInRecommendations (now : ℤ × ℤ) (profile : LinkedInProfile)
    (experiences : List LinkedInExperience)
    (skills : List LinkedInSkill)
    (certifications : List LinkedInCertification) : List String :=
  (if yearsOfExperience now experiences < 2 then
    ["Gain more professional experience"] else []) ++
  (if withDescriptionCount experiences < experiences.length then
    ["Add detailed descriptions to your work experiences"] else []) ++
  (if skills.length < 10 then
    ["Add more skills to your profile"] else []) ++
  (if profile.connections < 100 then
    ["Expand your professional network"] else []) ++
  (if profile.headline = none then
    ["Add a professional headline"] else []) ++
  (if profile.bio = none then
    ["Write a compelling summary/bio"] else []) ++
  (if certifications.length = 0 then
    ["Add relevant certifications to stand out"] else [])

/-- `LinkedInConnector.calculateMetrics`. -/
def calculateMetrics (now : ℤ × ℤ) (profile : LinkedInProfile)
    (experiences : List LinkedInExperience)
    (education : List LinkedInEducation)
    (skills : List LinkedInSkill)
    (certifications : List LinkedInCertification) : LinkedInMetrics :=
  { experienceScore := (jsRound (experienceScore now experiences) : ℚ)
    educationScore := (jsRound (educationScore education) : ℚ)
    skillsScore := (jsRound (skillsScore skills) : ℚ)
    networkScore := (jsRound (networkScore profile) : ℚ)
    overallScore := (jsRound (overallScoreQ now profile experiences education skills) : ℚ)
    recommendations :=
      linkedInRecommendations now profile experiences skills certifications }

end LinkedInConnector

/-! ## Aggregation and scoring service (`AggregationService`)

`calculateCompositeScore` reads, for each connected platform, only the
`metrics.overallScore` and `metrics.recommendations` members of the cached
platform payload; the payloads are modelled accordingly. The `calculatedAt`
timestamp is not modelled (pure wall-clock decoration). -/

namespace AggregationService

/-- The `metrics` member of a cached platform payload, as read by the
aggregation service. -/
structure PlatformMetricsRef where
  overallScore : ℚ
  recommendations : List String

/-- A cached platform payload (only its `metrics` member is read). -/
structure PlatformPayload where
  metrics : PlatformMetricsRef

/-- `DigitalProfile.platforms`. -/
structure DigitalProfilePlatforms where
  github : Option PlatformPayload
  linkedin : Option PlatformPayload
  twitter : Option PlatformPayload
  devto : Option PlatformPayload
  hashnode : Option PlatformPayload
  medium : Option PlatformPayload

structure ScoringWeights where
  github : ℚ
  linkedin : ℚ
  twitter : ℚ
  blog : ℚ
deriving DecidableEq

/-- `DEFAULT_WEIGHTS = { github: 0.35, linkedin: 0.30, twitter: 0.15, blog: 0.20 }`. -/
def DEFAULT_WEIGHTS : ScoringWeights :=
  { github := 35/100, linkedin := 30/100, twitter := 15/100, blog := 20/100 }

structure CompositeScore where
  overallScore : ℤ
  githubScore : Option ℚ
  linkedinScore : Option ℚ
  blogScore : Option ℚ
  socialScore : Option ℚ
  platformScores : List (String × ℚ)
  weights : ScoringWeights
  platformsConnected : List String
  platformsMissing : List String
  strengths : List String
  improvements : List String
  recommendations : List String

def githubScore? (p : DigitalProfilePlatforms) : Option ℚ :=
  p.github.map (fun d => d.metrics.overallScore)

def linkedinScore? (p : DigitalProfilePlatforms) : Option ℚ :=
  p.linkedin.map (fun d => d.metrics.overallScore)

def socialScore? (p : DigitalProfilePlatforms) : Option ℚ :=
  p.twitter.map (fun d => d.metrics.overallScore)

/-- The `blogScores` array: dev.to, Hashnode, Medium overall scores in
push order. -/
def blogScoresList (p : DigitalProfilePlatforms) : List ℚ :=
  (p.devto.map (fun d => d.metrics.overallScore)).toList ++
  (p.hashnode.map (fun d => d.metrics.overallScore)).toList ++
  (p.medium.map (fun d => d.metrics.overallScore)).toList

/-- `blogScore = Math.round(blogScores.reduce((a, b) => a + b, 0) / blogScores.length)`
when at least one blog provider is connected. -/
def blogScore? (p : DigitalProfilePlatforms) : Option ℚ :=
  if blogScoresList p = [] then none
  else some ((jsRound ((blogScoresList p).sum / ((blogScoresList p).length : ℚ)) : ℤ) : ℚ)

def platformsConnected (p : DigitalProfilePlatforms) : List String :=
  (if p.github.isSome then ["github"] else []) ++
  (if p.linkedin.isSome then ["linkedin"] else []) ++
  (if p.twitter.isSome then ["twitter"] else []) ++
  (if p.devto.isSome then ["devto"] else []) ++
  (if p.hashnode.isSome then ["hashnode"] else []) ++
  (if p.medium.isSome then ["medium"] else [])

def platformsMissing (p : DigitalProfilePlatforms) : List String :=
  (if p.github.isSome then [] else ["github"]) ++
  (if p.linkedin.isSome then [] else ["linkedin"]) ++
  (if p.twitter.isSome then [] else ["twitter"]) ++
  (if blogScoresList p = [] then ["blog"] else [])

def platformScores (p : DigitalProfilePlatforms) : List (String × ℚ) :=
  (p.github.map (fun d => ("github", d.metrics.overallScore))).toList ++
  (p.linkedin.map (fun d => ("linkedin", d.metrics.overallScore))).toList ++
  (p.twitter.map (fun d => ("twitter", d.metrics.overallScore))).toList ++
  (p.devto.map (fun d => ("devto", d.metrics.overallScore))).toList ++
  (p.hashnode.map (fun d => ("hashnode", d.metrics.overallScore))).toList ++
  (p.medium.map (fun d => ("medium", d.metrics.overallScore))).toList

/-- One `weightedSum` summand: `score * weight` when the family is
connected, `0` otherwise. -/
def optScoreTerm (o : Option ℚ) (wx : ℚ) : ℚ :=
  match o with
  | some s => s * wx
  | none => 0

/-- The accumulated `weightedSum` over the connected families. -/
def weightedSum (w : ScoringWeights) (p : DigitalProfilePlatforms) : ℚ :=
  optScoreTerm (githubScore? p) w.github +
  optScoreTerm (linkedinScore? p) w.linkedin +
  optScoreTerm (socialScore? p) w.twitter +
  optScoreTerm (blogScore? p) w.blog

/-- The accumulated `totalWeight` over the connected families. -/
def totalWeight (w : ScoringWeights) (p : DigitalProfilePlatforms) : ℚ :=
  (if (githubScore? p).isSome then w.github else 0) +
  (if (linkedinScore? p).isSome then w.linkedin else 0) +
  (if (socialScore? p).isSome then w.twitter else 0) +
  (if (blogScore? p).isSome then w.blog else 0)

/-- `totalWeight > 0 ? Math.round(weightedSum / totalWeight) : 0`. -/
def overallScore (w : ScoringWeights) (p : DigitalProfilePlatforms) : ℤ :=
  if 0 < totalWeight w p then jsRound (weightedSum w p / totalWeight w p) else 0

def strengths (p : DigitalProfilePlatforms) : List String :=
  (match githubScore? p with
   | some s => if 70 ≤ s then ["Strong GitHub presence with quality code"] else []
   | none => []) ++
  (match linkedinScore? p with
   | some s => if 70 ≤ s then ["Well-developed professional network"] else []
   | none => []) ++
  (match socialScore? p with
   | some s => if 70 ≤ s then ["Strong social media engagement"] else []
   | none => []) ++
  (match blogScore? p with
   | some s => if 70 ≤ s then ["Active content creator with quality blogs"] else []
   | none => [])

def improvements (p : DigitalProfilePlatforms) : List String :=
  (match githubScore? p with
   | some s => if s < 50 then ["Improve GitHub activity and project quality"] else []
   | none => []) ++
  (match linkedinScore? p with
   | some s => if s < 50 then ["Enhance LinkedIn profile and connections"] else []
   | none => []) ++
  (match socialScore? p with
   | some s => if s < 50 then ["Increase technical content on social media"] else []
   | none => []) ++
  (match blogScore? p with
   | some s => if s < 50 then ["Write more technical blog content"] else []
   | none => [])

def recsOf (o : Option PlatformPayload) : List String :=
  match o with
  | some d => d.metrics.recommendations
  | none => []

/-- `'Connect more platforms: ' + platformsMissing.join(', ')`. -/
def connectMoreMsg (missing : List String) : String :=
  "Connect more platforms: " ++ String.intercalate ", " missing

/-- `allRecommendations` in push order: github, linkedin, twitter, dev.to,
hashnode, medium, then the connect-more entry when families are missing. -/
def allRecommendations (p : DigitalProfilePlatforms) : List String :=
  recsOf p.github ++ recsOf p.linkedin ++ recsOf p.twitter ++
  recsOf p.devto ++ recsOf p.hashnode ++ recsOf p.medium ++
  (if platformsMissing p = [] then [] else [connectMoreMsg (platformsMissing p)])

/-- `AggregationService.calculateCompositeScore`. -/
def calculateCompositeScore (w : ScoringWeights)
    (p : DigitalProfilePlatforms) : CompositeScore :=
  { overallScore := overallScore w p
    githubScore := githubScore? p
    linkedinScore := linkedinScore? p
    blogScore := blogScore? p
    socialScore := socialScore? p
    platformScores := platformScores p
    weights := w
    platformsConnected := platformsConnected p
    platformsMissing := platformsMissing p
    strengths := strengths p
    improvements := improvements p
    recommendations := (dedupKeepFirst (allRecommendations p)).take 10 }

end AggregationService

namespace AggregationService

/-! ### Persistence (`calculateAndStoreScore`, `getScoreHistory`, weights)

The Prisma `candidateScore` table is an explicit list of records together
with a fresh-id counter and a strictly increasing insertion clock (standing
for `createdAt` / `updatedAt` wall-clock values). `aggregateProfile` is a
database read of cached platform payloads; its result — the
`DigitalProfile.platforms` handed to `calculateCompositeScore` — is an
explicit parameter of the store step. -/

structure ScoreRecord where
  id : ℕ
  candidateId : String
  compositeScore : ℤ
  githubScore : Option ℚ
  linkedinScore : Option ℚ
  blogScore : Option ℚ
  socialScore : Option ℚ
  strengths : List String
  improvements : List String
  createdAt : ℕ
  updatedAt : ℕ

structure ScoreDb where
  records : List ScoreRecord
  nextId : ℕ
  clock : ℕ

def emptyScoreDb : ScoreDb := { records := [], nextId := 0, clock := 0 }

/-- `prisma.candidateScore.findFirst({ where: { candidateId }, orderBy:
{ createdAt: 'desc' } })`: the candidate's record with the greatest
`createdAt`. -/
def latestScoreRecord (db : ScoreDb) (candidateId : String) : Option ScoreRecord :=
  (db.records.filter (fun r => r.candidateId = candidateId)).foldl
    (fun acc r =>
      match acc with
      | none => some r
      | some a => if a.createdAt < r.createdAt then some r else some a)
    none

/-- The `previous` CompositeScore rebuilt from a stored record
(source lines: breakdown maps empty, `recommendations: []`). -/
def recordToComposite (w : ScoringWeights) (r : ScoreRecord) : CompositeScore :=
  { overallScore := r.compositeScore
    githubScore := r.githubScore
    linkedinScore := r.linkedinScore
    blogScore := r.blogScore
    socialScore := r.socialScore
    platformScores := []
    weights := w
    platformsConnected := []
    platformsMissing := []
    strengths := r.strengths
    improvements := r.improvements
    recommendations := [] }

structure ScoreUpdateResult where
  previous : Option CompositeScore
  current : CompositeScore
  changed : Bool
  changeAmount : ℤ

/-- `prisma.candidateScore.upsert({ where: { id: previousScoreRecord?.id
|| '' }, create: {...}, update: {...} })`: when a record with the probed id
exists it is updated in place (`createdAt` untouched, `updatedAt` reset),
otherwise a new record is created. `whereId = none` models the `''`
sentinel used when no previous record exists. -/
def upsertScore (db : ScoreDb) (whereId : Option ℕ) (candidateId : String)
    (current : CompositeScore) : ScoreDb :=
  if db.records.any (fun r => whereId = some r.id) then
    { db with
      records := db.records.map (fun r =>
        if whereId = some r.id then
          { r with
            compositeScore := current.overallScore
            githubScore := current.githubScore
            linkedinScore := current.linkedinScore
            blogScore := current.blogScore
            socialScore := current.socialScore
            strengths := current.strengths
            improvements := current.improvements
            updatedAt := db.clock }
        else r)
      clock := db.clock + 1 }
  else
    { records := db.records ++
        [{ id := db.nextId
           candidateId := candidateId
           compositeScore := current.overallScore
           githubScore := current.githubScore
           linkedinScore := current.linkedinScore
           blogScore := current.blogScore
           socialScore := current.socialScore
           strengths := current.strengths
           improvements := current.improvements
           createdAt := db.clock
           updatedAt := db.clock }]
      nextId := db.nextId + 1
      clock := db.clock + 1 }

/-- `AggregationService.calculateAndStoreScore` (the aggregation result
`p` — what `aggregateProfile` read from the platform caches — is passed
explicitly). -/
def calculateAndStoreScore (w : ScoringWeights) (p : DigitalProfilePlatforms)
    (candidateId : String) (db : ScoreDb) : ScoreUpdateResult × ScoreDb :=
  let previousScoreRecord := latestScoreRecord db candidateId
  let previous := previousScoreRecord.map (recordToComposite w)
  let current := calculateCompositeScore w p
  let db' := upsertScore db (previousScoreRecord.map (fun r => r.id)) candidateId current
  let changed : Bool :=
    match previous with
    | none => false
    | some prev => decide (prev.overallScore ≠ current.overallScore)
  let changeAmount : ℤ :=
    match previous with
    | none => current.overallScore
    | some prev => current.overallScore - prev.overallScore
  ({ previous := previous, current := current,
     changed := changed, changeAmount := changeAmount }, db')

/-- Insert a record into a list sorted by descending `createdAt`. -/
def insertByCreatedDesc (x : ScoreRecord) :
    List ScoreRecord → List ScoreRecord
  | [] => [x]
  | y :: ys =>
    if y.createdAt < x.createdAt then x :: y :: ys
    else y :: insertByCreatedDesc x ys

/-- `orderBy: { createdAt: 'desc' }`. -/
def sortByCreatedDesc (l : List ScoreRecord) : List ScoreRecord :=
  l.foldr insertByCreatedDesc []

/-- `AggregationService.getScoreHistory` (`findMany` ordered by
`createdAt` descending, `take limit`, mapped back to CompositeScore
values with empty breakdown and recommendations). -/
def getScoreHistory (w : ScoringWeights) (db : ScoreDb)
    (candidateId : String) (limit : ℕ) : List CompositeScore :=
  ((sortByCreatedDesc (db.records.filter
      (fun r => r.candidateId = candidateId))).take limit).map
    (recordToComposite w)

/-- `Partial<ScoringWeights>`. -/
structure PartialScoringWeights where
  github : Option ℚ
  linkedin : Option ℚ
  twitter : Option ℚ
  blog : Option ℚ

/-- `setWeights(weights) { this.weights = { ...this.weights, ...weights } }`. -/
def setWeights (current : ScoringWeights)
    (weights : PartialScoringWeights) : ScoringWeights :=
  { github := weights.github.getD current.github
    linkedin := weights.linkedin.getD current.linkedin
    twitter := weights.twitter.getD current.twitter
    blog := weights.blog.getD current.blog }

/-- `getWeights() { return { ...this.weights } }` (a copy of the value). -/
def getWeights (current : ScoringWeights) : ScoringWeights := current

end AggregationService

/-! ## Change detection (`ScoreUpdateService.onPlatformDataChanged`,
`src/server/src/services/notification.service.ts`)

The step recalculates and stores the score, then emits (a) a score-change
notification when `changed` holds (improvement vs decline framing by the
sign of `changeAmount`), and (b) a new-recommendations notification with
payload `current.recommendations.filter(r =>
!previous.recommendations.includes(r))` when the current list and the
filtered list are nonempty. Events are modelled as the optional payloads
of this single step. -/

namespace ScoreUpdateService

open AggregationService

structure StepOutcome where
  result : ScoreUpdateResult
  db : ScoreDb
  scoreEvent : Option Bool
  newRecsEvent : Option (List String)

/-- `ScoreUpdateService.onPlatformDataChanged` (the aggregated platform
payloads `p` stand for the database state read during recalculation). -/
def onPlatformDataChanged (w : ScoringWeights) (p : DigitalProfilePlatforms)
    (candidateId : String) (db : ScoreDb) : StepOutcome :=
  let rd := calculateAndStoreScore w p candidateId db
  let result := rd.1
  let scoreEvent : Option Bool :=
    if result.changed then some (decide (0 < result.changeAmount)) else none
  let newRecsEvent : Option (List String) :=
    if 0 < result.current.recommendations.length then
      let newRecs :=
        match result.previous with
        | some prev => result.current.recommendations.filter
            (fun r => ¬ prev.recommendations.contains r)
        | none => result.current.recommendations
      if 0 < newRecs.length then some newRecs else none
    else none
  { result := result, db := rd.2,
    scoreEvent := scoreEvent, newRecsEvent := newRecsEvent }

end ScoreUpdateService

/-! ## Claim theorems -/

section ClaimC10

open AggregationService

/-- C10: `setWeights(p)` sets exactly the weight fields named in `p` to
`p`'s values (`Option.getD` is the semantics of the object-spread merge:
a named field takes `p`'s value, an unnamed field keeps the current one),
a subsequent `getWeights()` returns exactly the merged four-field
configuration, and no renormalization to sum 1 is performed (overriding
`github` to 0.9 in the default configuration yields a configuration whose
fields sum to 1.55). -/
theorem setWeights_merges_and_getWeights_returns_it
    (cur : ScoringWeights) (p : PartialScoringWeights) :
    (setWeights cur p).github = p.github.getD cur.github
    ∧ (setWeights cur p).linkedin = p.linkedin.getD cur.linkedin
    ∧ (setWeights cur p).twitter = p.twitter.getD cur.twitter
    ∧ (setWeights cur p).blog = p.blog.getD cur.blog
    ∧ getWeights (setWeights cur p) = setWeights cur p
    ∧ (setWeights DEFAULT_WEIGHTS
        { github := some (9/10), linkedin := none, twitter := none, blog := none }
        = { github := 9/10, linkedin := 30/100, twitter := 15/100, blog := 20/100 })
    ∧ ((setWeights DEFAULT_WEIGHTS
        { github := some (9/10), linkedin := none, twitter := none, blog := none }).github +
       (setWeights DEFAULT_WEIGHTS
        { github := some (9/10), linkedin := none, twitter := none, blog := none }).linkedin +
       (setWeights DEFAULT_WEIGHTS
        { github := some (9/10), linkedin := none, twitter := none, blog := none }).twitter +
       (setWeights DEFAULT_WEIGHTS
        { github := some (9/10), linkedin := none, twitter := none, blog := none }).blog ≠ 1) := by
  refine ⟨rfl, rfl, rfl, rfl, rfl, rfl, ?_⟩
  simp [setWeights, DEFAULT_WEIGHTS]
  norm_num

end ClaimC10

section ClaimC5

/-- C5: on an empty activity list each calculator returns (totally, all
divisions guarded) a metrics record whose recommendation list contains an
entry urging more activity: GitHub always emits the keep-projects-
maintained entry (no repository is active), Twitter and the blog
calculator return exactly their posting-activity entry, and LinkedIn with
no experience entries always urges gaining professional experience. -/
theorem emptyActivity_recommends_activity :
    (∀ (profile : GitHubConnector.GitHubUserProfile)
       (stats : GitHubConnector.GitHubContributionStats) (t : ℤ),
      "Keep more projects actively maintained" ∈
        (GitHubConnector.calculateMetrics profile [] stats t).recommendations)
    ∧ (∀ profile : TwitterConnector.TwitterProfile,
        (TwitterConnector.calculateMetrics profile []).recommendations
          = ["Tweet more to build your social presence"])
    ∧ (∀ profile : BlogConnector.BlogProfile,
        (BlogConnector.calculateMetrics profile []).recommendations
          = ["Start writing blog posts to build your content portfolio"])
    ∧ (∀ (now : ℤ × ℤ) (profile : LinkedInConnector.LinkedInProfile)
         (education : List LinkedInConnector.LinkedInEducation)
         (skills : List LinkedInConnector.LinkedInSkill)
         (certifications : List LinkedInConnector.LinkedInCertification),
        "Gain more professional experience" ∈
          (LinkedInConnector.calculateMetrics now profile [] education skills
            certifications).recommendations) := by
  refine ⟨?_, ?_, ?_, ?_⟩
  · intro profile stats t
    have hact : GitHubConnector.activeRepos
        (GitHubConnector.ownRepos []) t < 3 := by
      simp [GitHubConnector.activeRepos, GitHubConnector.ownRepos]
    simp only [GitHubConnector.calculateMetrics,
      GitHubConnector.githubRecommendations, if_pos hact, List.mem_append,
      List.mem_singleton]
    tauto
  · intro profile
    simp [TwitterConnector.calculateMetrics, TwitterConnector.originalTweets]
  · intro profile
    simp [BlogConnector.calculateMetrics]
  · intro now profile education skills certifications
    have hy : LinkedInConnector.yearsOfExperience now [] < 2 := by
      simp [LinkedInConnector.yearsOfExperience, LinkedInConnector.totalMonths,
        jsRound]
      norm_num
    simp only [LinkedInConnector.calculateMetrics,
      LinkedInConnector.linkedInRecommendations, if_pos hy, List.mem_append,
      List.mem_singleton]
    tauto

end ClaimC5

section ClaimC8

open AggregationService

/-- C8: the composite recommendations list is exactly the first-occurrence
deduplication of the per-family recommendation lists concatenated in
family order (github, linkedin, twitter, dev.to, hashnode, medium)
followed by the single connect-more-platforms entry naming every missing
family (present only when some family is missing), truncated to the first
10 entries; consequently it has no duplicates and length at most 10. -/
theorem compositeScore_recommendations_dedup_cap
    (w : ScoringWeights) (p : DigitalProfilePlatforms) :
    (calculateCompositeScore w p).recommendations
      = (dedupKeepFirst
          (recsOf p.github ++ recsOf p.linkedin ++ recsOf p.twitter ++
           recsOf p.devto ++ recsOf p.hashnode ++ recsOf p.medium ++
           (if platformsMissing p = [] then []
            else [connectMoreMsg (platformsMissing p)]))).take 10
    ∧ (calculateCompositeScore w p).recommendations.Nodup
    ∧ (calculateCompositeScore w p).recommendations.length ≤ 10 := by
  refine ⟨rfl, ?_, ?_⟩
  · exact ((List.take_sublist _ _).nodup (dedupKeepFirst_nodup _))
  · exact List.length_take_le _ _

end ClaimC8

namespace AggregationService

/-- A cached platform payload holding just an overall score (helper for
concrete instances; the calculators' recommendation lists are empty). -/
def mkPayload (s : ℚ) : PlatformPayload := { metrics := { overallScore := s, recommendations := [] } }

/-- Weight of each of the four ite summands of `totalWeight`. -/
theorem totalWeight_pos (w : ScoringWeights) (p : DigitalProfilePlatforms)
    (hg : 0 < w.github) (hl : 0 < w.linkedin) (ht : 0 < w.twitter)
    (hb : 0 < w.blog)
    (h : (githubScore? p).isSome ∨ (linkedinScore? p).isSome ∨
         (socialScore? p).isSome ∨ (blogScore? p).isSome) :
    0 < totalWeight w p := by
  have t1 : (0:ℚ) ≤ if (githubScore? p).isSome then w.github else 0 := by
    split_ifs; exacts [le_of_lt hg, le_refl 0]
  have t2 : (0:ℚ) ≤ if (linkedinScore? p).isSome then w.linkedin else 0 := by
    split_ifs; exacts [le_of_lt hl, le_refl 0]
  have t3 : (0:ℚ) ≤ if (socialScore? p).isSome then w.twitter else 0 := by
    split_ifs; exacts [le_of_lt ht, le_refl 0]
  have t4 : (0:ℚ) ≤ if (blogScore? p).isSome then w.blog else 0 := by
    split_ifs; exacts [le_of_lt hb, le_refl 0]
  unfold totalWeight
  rcases h with h | h | h | h <;> simp only [h, if_true] <;> linarith

end AggregationService

section ClaimC1

open AggregationService

/-- C1: under positive weights, the composite overall score is `0` when no
platform family is present, and otherwise equals
`round(Σ score_f·weight_f / Σ weight_f)` where both sums run over exactly
the families whose score is non-null (`weightedSum`/`totalWeight` are the
source's accumulations over connected families); in particular, when
exactly one family is connected with score `s` the weight cancels and the
overall score is `round(s)` (shown for each of the four families). -/
theorem compositeScore_renormalized_weighted_mean
    (w : ScoringWeights) (p : DigitalProfilePlatforms)
    (hg : 0 < w.github) (hl : 0 < w.linkedin) (ht : 0 < w.twitter)
    (hb : 0 < w.blog) :
    (p.github = none → p.linkedin = none → p.twitter = none →
      blogScoresList p = [] → (calculateCompositeScore w p).overallScore = 0)
    ∧ ((githubScore? p).isSome ∨ (linkedinScore? p).isSome ∨
       (socialScore? p).isSome ∨ (blogScore? p).isSome →
        (calculateCompositeScore w p).overallScore
          = jsRound (weightedSum w p / totalWeight w p))
    ∧ (∀ s, githubScore? p = some s → linkedinScore? p = none →
        socialScore? p = none → blogScore? p = none →
        (calculateCompositeScore w p).overallScore = jsRound s)
    ∧ (∀ s, githubScore? p = none → linkedinScore? p = some s →
        socialScore? p = none → blogScore? p = none →
        (calculateCompositeScore w p).overallScore = jsRound s)
    ∧ (∀ s, githubScore? p = none → linkedinScore? p = none →
        socialScore? p = some s → blogScore? p = none →
        (calculateCompositeScore w p).overallScore = jsRound s)
    ∧ (∀ s, githubScore? p = none → linkedinScore? p = none →
        socialScore? p = none → blogScore? p = some s →
        (calculateCompositeScore w p).overallScore = jsRound s) := by
  refine ⟨?_, ?_, ?_, ?_, ?_, ?_⟩
  · intro h1 h2 h3 h4
    have htw : totalWeight w p = 0 := by
      simp [totalWeight, githubScore?, linkedinScore?, socialScore?,
        blogScore?, h1, h2, h3, h4]
    simp [calculateCompositeScore, overallScore, htw]
  · intro h
    have htw := totalWeight_pos w p hg hl ht hb h
    simp [calculateCompositeScore, overallScore, if_pos htw]
  · intro s h1 h2 h3 h4
    have htw : totalWeight w p = w.github := by
      simp [totalWeight, h1, h2, h3, h4]
    have hws : weightedSum w p = s * w.github := by
      simp [weightedSum, optScoreTerm, h1, h2, h3, h4]
    have hpos : (0:ℚ) < totalWeight w p := htw ▸ hg
    simp only [calculateCompositeScore, overallScore, if_pos hpos, htw, hws]
    rw [mul_div_cancel_right₀ s (ne_of_gt hg), if_pos hg]
  · intro s h1 h2 h3 h4
    have htw : totalWeight w p = w.linkedin := by
      simp [totalWeight, h1, h2, h3, h4]
    have hws : weightedSum w p = s * w.linkedin := by
      simp [weightedSum, optScoreTerm, h1, h2, h3, h4]
    have hpos : (0:ℚ) < totalWeight w p := htw ▸ hl
    simp only [calculateCompositeScore, overallScore, if_pos hpos, htw, hws]
    rw [mul_div_cancel_right₀ s (ne_of_gt hl), if_pos hl]
  · intro s h1 h2 h3 h4
    have htw : totalWeight w p = w.twitter := by
      simp [totalWeight, h1, h2, h3, h4]
    have hws : weightedSum w p = s * w.twitter := by
      simp [weightedSum, optScoreTerm, h1, h2, h3, h4]
    have hpos : (0:ℚ) < totalWeight w p := htw ▸ ht
    simp only [calculateCompositeScore, overallScore, if_pos hpos, htw, hws]
    rw [mul_div_cancel_right₀ s (ne_of_gt ht), if_pos ht]
  · intro s h1 h2 h3 h4
    have htw : totalWeight w p = w.blog := by
      simp [totalWeight, h1, h2, h3, h4]
    have hws : weightedSum w p = s * w.blog := by
      simp [weightedSum, optScoreTerm, h1, h2, h3, h4]
    have hpos : (0:ℚ) < totalWeight w p := htw ▸ hb
    simp only [calculateCompositeScore, overallScore, if_pos hpos, htw, hws]
    rw [mul_div_cancel_right₀ s (ne_of_gt hb), if_pos hb]

/-- Witness for C1 at the spec's own scenario: a candidate with only a
code-hosting connection scoring 82 under the default weights has overall
score exactly 82. -/
theorem compositeScore_renormalized_weighted_mean_witness :
    (calculateCompositeScore DEFAULT_WEIGHTS
      { github := some (mkPayload 82), linkedin := none, twitter := none,
        devto := none, hashnode := none, medium := none }).overallScore = 82 := by
  have h := (compositeScore_renormalized_weighted_mean DEFAULT_WEIGHTS
    { github := some (mkPayload 82), linkedin := none, twitter := none,
      devto := none, hashnode := none, medium := none }
    (by norm_num [DEFAULT_WEIGHTS]) (by norm_num [DEFAULT_WEIGHTS])
    (by norm_num [DEFAULT_WEIGHTS]) (by norm_num [DEFAULT_WEIGHTS])).2.2.1
  have h82 := h 82 (by simp [githubScore?, mkPayload])
    (by simp [linkedinScore?]) (by simp [socialScore?])
    (by simp [blogScore?, blogScoresList])
  rw [h82]
  norm_num [jsRound]

end ClaimC1

section ClaimC7

open AggregationService

/-- Two connected blog providers with overall scores 0 and 1 (dev.to and
Hashnode), no other platforms. -/
def pBlogTwo : DigitalProfilePlatforms :=
  { github := none, linkedin := none, twitter := none,
    devto := some (mkPayload 0), hashnode := some (mkPayload 1), medium := none }

/-- C7 counterexample: with blog providers scoring 0 and 1 the arithmetic
mean of the providers' scores is 1/2, but the blog family score handed to
the weighted combination is `Math.round(1/2) = 1`, not the mean. -/
theorem blogFamilyScore_not_mean_counterexample :
    blogScoresList pBlogTwo = [0, 1]
    ∧ (calculateCompositeScore DEFAULT_WEIGHTS pBlogTwo).blogScore = some 1
    ∧ ((0:ℚ) + 1) / 2 = 1/2
    ∧ (calculateCompositeScore DEFAULT_WEIGHTS pBlogTwo).blogScore
        ≠ some (((0:ℚ) + 1) / 2) := by
  have hl : blogScoresList pBlogTwo = [0, 1] := by
    simp [blogScoresList, pBlogTwo, mkPayload]
  have hb : blogScore? pBlogTwo = some 1 := by
    rw [blogScore?, if_neg (by rw [hl]; simp), hl]
    norm_num [jsRound]
  refine ⟨hl, hb, by norm_num, ?_⟩
  rw [show (calculateCompositeScore DEFAULT_WEIGHTS pBlogTwo).blogScore
      = blogScore? pBlogTwo from rfl, hb]
  norm_num

/-- C7 amended: when at least one blog provider is connected, the blog
family score handed to the weighted combination equals
`Math.round` of the arithmetic mean of the providers' overall scores —
the mean is rounded to an integer before entering the combination — and
the weighted sum decomposes into the blog-free weighted sum plus that
rounded mean times the blog weight. -/
theorem blogFamilyScore_rounded_mean (w : ScoringWeights)
    (p : DigitalProfilePlatforms) (h : blogScoresList p ≠ []) :
    blogScore? p = some ((jsRound ((blogScoresList p).sum /
        ((blogScoresList p).length : ℚ)) : ℤ) : ℚ)
    ∧ (calculateCompositeScore w p).blogScore = blogScore? p
    ∧ weightedSum w p
        = weightedSum w
            { p with devto := none, hashnode := none, medium := none }
          + ((jsRound ((blogScoresList p).sum /
              ((blogScoresList p).length : ℚ)) : ℤ) : ℚ) * w.blog := by
  have hb : blogScore? p = some ((jsRound ((blogScoresList p).sum /
      ((blogScoresList p).length : ℚ)) : ℤ) : ℚ) := by
    rw [blogScore?, if_neg h]
  refine ⟨hb, rfl, ?_⟩
  have hstrip : blogScore?
      { p with devto := none, hashnode := none, medium := none } = none := by
    simp [blogScore?, blogScoresList]
  simp only [weightedSum, optScoreTerm, hb, hstrip, githubScore?,
    linkedinScore?, socialScore?]
  ring

/-- Witness for C7 (amended) at a single dev.to provider with score 80. -/
theorem blogFamilyScore_rounded_mean_witness :
    blogScore?
        { github := none, linkedin := none, twitter := none,
          devto := some (mkPayload 80), hashnode := none, medium := none }
      = some ((jsRound ((blogScoresList
          { github := none, linkedin := none, twitter := none,
            devto := some (mkPayload 80), hashnode := none,
            medium := none }).sum /
          ((blogScoresList
          { github := none, linkedin := none, twitter := none,
            devto := some (mkPayload 80), hashnode := none,
            medium := none }).length : ℚ)) : ℤ) : ℚ) := by
  exact (blogFamilyScore_rounded_mean DEFAULT_WEIGHTS _
    (by simp [blogScoresList, mkPayload])).1

end ClaimC7

namespace TwitterConnector

theorem twEngagementRate_nonneg (profile : TwitterProfile)
    (orig : List TwitterTweet) : 0 ≤ engagementRate profile orig := by
  unfold engagementRate
  split_ifs
  · positivity
  · norm_num

theorem twEngagementScore_mem (profile : TwitterProfile)
    (orig : List TwitterTweet) :
    0 ≤ engagementScore profile orig ∧ engagementScore profile orig ≤ 100 := by
  refine ⟨?_, min_le_right _ _⟩
  unfold engagementScore
  apply min100_nonneg
  have h1 : (0:ℚ) ≤ if 10 ≤ avgLikes orig then 40 else avgLikes orig * 4 := by
    split_ifs
    · norm_num
    · unfold avgLikes; positivity
  have h2 : (0:ℚ) ≤ if 5 ≤ avgRetweets orig then 30 else avgRetweets orig * 6 := by
    split_ifs
    · norm_num
    · unfold avgRetweets; positivity
  have h3 : (0:ℚ) ≤ if 1 ≤ engagementRate profile orig then 30
      else engagementRate profile orig * 30 := by
    split_ifs
    · norm_num
    · exact mul_nonneg (twEngagementRate_nonneg profile orig) (by norm_num)
  linarith

theorem twTechnicalContentScore_mem (orig : List TwitterTweet) :
    0 ≤ technicalContentScore orig ∧ technicalContentScore orig ≤ 100 := by
  refine ⟨?_, min_le_right _ _⟩
  unfold technicalContentScore technicalTweetRatio
  apply min100_nonneg
  positivity

theorem twInfluenceScore_mem (profile : TwitterProfile) :
    0 ≤ influenceScore profile ∧ influenceScore profile ≤ 100 := by
  refine ⟨?_, min_le_right _ _⟩
  unfold influenceScore
  apply min100_nonneg
  have h1 : (0:ℚ) ≤ if 10000 ≤ profile.followers then 40
      else (profile.followers : ℚ) / 10000 * 40 := by
    split_ifs
    · norm_num
    · positivity
  have h2 : (0:ℚ) ≤ if 100 ≤ profile.listedCount then 30
      else (profile.listedCount : ℚ) / 100 * 30 := by
    split_ifs
    · norm_num
    · positivity
  have h3 : (0:ℚ) ≤ if profile.verified then (30:ℚ) else 0 := by
    split_ifs <;> norm_num
  linarith

theorem twTweetsPerWeek_nonneg (orig : List TwitterTweet) :
    0 ≤ tweetsPerWeek orig := by
  unfold tweetsPerWeek
  split_ifs
  · apply div_nonneg (by positivity)
    exact le_trans zero_le_one (le_max_left 1 _)
  · norm_num

theorem twConsistencyScore_mem (orig : List TwitterTweet) :
    0 ≤ consistencyScore orig ∧ consistencyScore orig ≤ 100 := by
  refine ⟨?_, min_le_right _ _⟩
  unfold consistencyScore
  apply min100_nonneg
  split_ifs
  · norm_num
  · exact mul_nonneg (twTweetsPerWeek_nonneg orig) (by norm_num)

theorem twOverallScoreQ_mem (profile : TwitterProfile)
    (orig : List TwitterTweet) :
    0 ≤ overallScoreQ profile orig ∧ overallScoreQ profile orig ≤ 100 := by
  obtain ⟨e0, e1⟩ := twEngagementScore_mem profile orig
  obtain ⟨t0, t1⟩ := twTechnicalContentScore_mem orig
  obtain ⟨i0, i1⟩ := twInfluenceScore_mem profile
  obtain ⟨c0, c1⟩ := twConsistencyScore_mem orig
  unfold overallScoreQ
  constructor <;> linarith

end TwitterConnector

namespace BlogConnector

theorem blogContentQualityScore_mem (posts : List BlogPost) :
    0 ≤ contentQualityScore posts ∧ contentQualityScore posts ≤ 100 := by
  refine ⟨?_, min_le_right _ _⟩
  unfold contentQualityScore
  apply min100_nonneg
  have h1 : (0:ℚ) ≤ if 3 ≤ avgReadingTime posts then 30
      else avgReadingTime posts * 10 := by
    split_ifs
    · norm_num
    · unfold avgReadingTime; positivity
  have h2 : (0:ℚ) ≤ ((coverImageCount posts : ℚ) / (posts.length : ℚ)) * 20 := by
    positivity
  have h3 : (0:ℚ) ≤ ((goodExcerptCount posts : ℚ) / (posts.length : ℚ)) * 20 := by
    positivity
  have h4 : (0:ℚ) ≤ min ((posts.length : ℚ) / 20) 1 * 30 := by positivity
  linarith

theorem blogMonthsActive_pos (posts : List BlogPost) : 0 < monthsActive posts :=
  lt_of_lt_of_le one_pos (le_max_left 1 _)

theorem blogPostsPerMonth_nonneg (posts : List BlogPost) :
    0 ≤ postsPerMonth posts := by
  unfold postsPerMonth
  exact div_nonneg (by positivity) (le_of_lt (blogMonthsActive_pos posts))

theorem blogConsistencyScore_mem (posts : List BlogPost) :
    0 ≤ consistencyScore posts ∧ consistencyScore posts ≤ 100 := by
  refine ⟨?_, min_le_right _ _⟩
  unfold consistencyScore
  apply min100_nonneg
  split_ifs
  · norm_num
  · exact mul_nonneg (blogPostsPerMonth_nonneg posts) (by norm_num)

theorem blogEngagementScore_mem (profile : BlogProfile) (posts : List BlogPost) :
    0 ≤ engagementScore profile posts ∧ engagementScore profile posts ≤ 100 := by
  refine ⟨?_, min_le_right _ _⟩
  unfold engagementScore
  apply min100_nonneg
  have h1 : (0:ℚ) ≤ if 10 ≤ (totalReactions posts : ℚ) / (posts.length : ℚ)
      then 40 else (totalReactions posts : ℚ) / (posts.length : ℚ) * 4 := by
    split_ifs
    · norm_num
    · positivity
  have h2 : (0:ℚ) ≤ if 5 ≤ (totalComments posts : ℚ) / (posts.length : ℚ)
      then 30 else (totalComments posts : ℚ) / (posts.length : ℚ) * 6 := by
    split_ifs
    · norm_num
    · positivity
  have h3 : (0:ℚ) ≤ if 100 ≤ profile.followers then 30
      else (profile.followers : ℚ) * (3/10) := by
    split_ifs
    · norm_num
    · positivity
  linarith

theorem blogTopicDiversityScore_mem (posts : List BlogPost) :
    0 ≤ topicDiversityScore posts ∧ topicDiversityScore posts ≤ 100 := by
  refine ⟨?_, min_le_right _ _⟩
  unfold topicDiversityScore
  apply min100_nonneg
  positivity

theorem blogOverallScoreQ_mem (profile : BlogProfile) (posts : List BlogPost) :
    0 ≤ overallScoreQ profile posts ∧ overallScoreQ profile posts ≤ 100 := by
  obtain ⟨a0, a1⟩ := blogContentQualityScore_mem posts
  obtain ⟨b0, b1⟩ := blogConsistencyScore_mem posts
  obtain ⟨c0, c1⟩ := blogEngagementScore_mem profile posts
  obtain ⟨d0, d1⟩ := blogTopicDiversityScore_mem posts
  unfold overallScoreQ
  constructor <;> linarith

end BlogConnector

namespace LinkedInConnector

theorem liTotalMonths_nonneg (now : ℤ × ℤ)
    (experiences : List LinkedInExperience) :
    0 ≤ totalMonths now experiences := by
  unfold totalMonths
  apply List.sum_nonneg
  intro x hx
  obtain ⟨e, _, rfl⟩ := List.mem_map.mp hx
  exact le_max_left 0 _

theorem liYearsOfExperience_nonneg (now : ℤ × ℤ)
    (experiences : List LinkedInExperience) :
    0 ≤ yearsOfExperience now experiences := by
  unfold yearsOfExperience
  have h : (0:ℚ) ≤ (totalMonths now experiences : ℚ) / 12 * 10 := by
    have := liTotalMonths_nonneg now experiences
    have h2 : (0:ℚ) ≤ (totalMonths now experiences : ℚ) := by exact_mod_cast this
    positivity
  have := jsRound_nonneg h
  have h3 : (0:ℚ) ≤ ((jsRound ((totalMonths now experiences : ℚ) / 12 * 10) : ℤ) : ℚ) := by
    exact_mod_cast this
  positivity

theorem liExperienceScore_mem (now : ℤ × ℤ)
    (experiences : List LinkedInExperience) :
    0 ≤ experienceScore now experiences ∧ experienceScore now experiences ≤ 100 := by
  refine ⟨?_, min_le_right _ _⟩
  unfold experienceScore
  apply min100_nonneg
  have h1 : (0:ℚ) ≤ if 5 ≤ yearsOfExperience now experiences then 40
      else yearsOfExperience now experiences * 8 := by
    split_ifs
    · norm_num
    · exact mul_nonneg (liYearsOfExperience_nonneg now experiences) (by norm_num)
  have h2 : (0:ℚ) ≤ if 3 ≤ experiences.length then 30
      else (experiences.length : ℚ) * 10 := by
    split_ifs
    · norm_num
    · positivity
  have h3 : (0:ℚ) ≤ ((withDescriptionCount experiences : ℚ) /
      max (experiences.length : ℚ) 1) * 30 := by positivity
  linarith

theorem liEducationScore_mem (education : List LinkedInEducation) :
    0 ≤ educationScore education ∧ educationScore education ≤ 100 := by
  refine ⟨?_, min_le_right _ _⟩
  unfold educationScore
  apply min100_nonneg
  have h1 : (0:ℚ) ≤ if 1 ≤ education.length then (40:ℚ) else 0 := by
    split_ifs <;> norm_num
  have h2 : (0:ℚ) ≤ if education.any isAdvancedDegree then (30:ℚ) else 0 := by
    split_ifs <;> norm_num
  have h3 : (0:ℚ) ≤ if education.any (fun e => e.fieldOfStudy.isSome)
      then (30:ℚ) else 0 := by
    split_ifs <;> norm_num
  linarith

theorem liSkillsScore_mem (skills : List LinkedInSkill) :
    0 ≤ skillsScore skills ∧ skillsScore skills ≤ 100 := by
  refine ⟨?_, min_le_right _ _⟩
  unfold skillsScore
  apply min100_nonneg
  have h1 : (0:ℚ) ≤ if 10 ≤ skills.length then 50
      else (skills.length : ℚ) * 5 := by
    split_ifs
    · norm_num
    · positivity
  have h2 : (0:ℚ) ≤ if 50 ≤ endorsementSum skills then 50
      else (endorsementSum skills : ℚ) := by
    split_ifs
    · norm_num
    · positivity
  linarith

theorem liNetworkScore_mem (profile : LinkedInProfile) :
    0 ≤ networkScore profile ∧ networkScore profile ≤ 100 := by
  refine ⟨?_, min_le_right _ _⟩
  unfold networkScore
  apply min100_nonneg
  split_ifs
  · norm_num
  · positivity

theorem liOverallScoreQ_mem (now : ℤ × ℤ) (profile : LinkedInProfile)
    (experiences : List LinkedInExperience)
    (education : List LinkedInEducation)
    (skills : List LinkedInSkill) :
    0 ≤ overallScoreQ now profile experiences education skills ∧
      overallScoreQ now profile experiences education skills ≤ 100 := by
  obtain ⟨a0, a1⟩ := liExperienceScore_mem now experiences
  obtain ⟨b0, b1⟩ := liEducationScore_mem education
  obtain ⟨c0, c1⟩ := liSkillsScore_mem skills
  obtain ⟨d0, d1⟩ := liNetworkScore_mem profile
  unfold overallScoreQ
  constructor <;> linarith

end LinkedInConnector

theorem jsRoundQ_mem {a : ℚ} (h0 : 0 ≤ a) (h1 : a ≤ 100) :
    0 ≤ ((jsRound a : ℤ) : ℚ) ∧ ((jsRound a : ℤ) : ℚ) ≤ 100 := by
  obtain ⟨c0, c1⟩ := jsRound_mem_Icc h0 h1
  constructor
  · exact_mod_cast c0
  · exact_mod_cast c1

namespace GitHubConnector

theorem ghCodeQualityScore_le (own : List GitHubRepository) :
    codeQualityScore own ≤ 100 := by
  unfold codeQualityScore; exact min_le_right _ _

theorem ghCommitFrequency_le (stats : GitHubContributionStats) :
    commitFrequency stats ≤ 100 := by
  unfold commitFrequency; exact min_le_right _ _

theorem ghCollaborationScore_le (stats : GitHubContributionStats) :
    collaborationScore stats ≤ 100 := by
  unfold collaborationScore; exact min_le_right _ _

theorem ghProjectImpactScore_le (profile : GitHubUserProfile)
    (own : List GitHubRepository) : projectImpactScore profile own ≤ 100 := by
  unfold projectImpactScore; exact min_le_right _ _

theorem ghMetrics_bounds (profile : GitHubUserProfile)
    (repositories : List GitHubRepository)
    (stats : GitHubContributionStats) (t : ℤ) :
    (0 ≤ (calculateMetrics profile repositories stats t).codeQualityScore ∧
      (calculateMetrics profile repositories stats t).codeQualityScore ≤ 100) ∧
    (0 ≤ (calculateMetrics profile repositories stats t).languageDiversity ∧
      (calculateMetrics profile repositories stats t).languageDiversity ≤ 100) ∧
    (0 ≤ (calculateMetrics profile repositories stats t).commitFrequency ∧
      (calculateMetrics profile repositories stats t).commitFrequency ≤ 100) ∧
    (0 ≤ (calculateMetrics profile repositories stats t).collaborationScore ∧
      (calculateMetrics profile repositories stats t).collaborationScore ≤ 100) ∧
    (0 ≤ (calculateMetrics profile repositories stats t).projectImpactScore ∧
      (calculateMetrics profile repositories stats t).projectImpactScore ≤ 100) ∧
    (0 ≤ (calculateMetrics profile repositories stats t).overallScore ∧
      (calculateMetrics profile repositories stats t).overallScore ≤ 100) := by
  simp only [calculateMetrics]
  refine ⟨?_, ?_, ?_, ?_, ?_, ?_⟩
  · exact jsRound_mem_Icc (ghCodeQualityScore_nonneg _) (ghCodeQualityScore_le _)
  · exact jsRound_mem_Icc (ghLanguageDiversity_nonneg _) (ghLanguageDiversity_le _)
  · exact jsRound_mem_Icc (ghCommitFrequency_nonneg _) (ghCommitFrequency_le _)
  · exact jsRound_mem_Icc (ghCollaborationScore_nonneg _) (ghCollaborationScore_le _)
  · exact jsRound_mem_Icc (ghProjectImpactScore_nonneg _ _) (ghProjectImpactScore_le _ _)
  · exact jsRound_mem_Icc (ghOverallScoreQ_bounds profile _ stats).1
      (ghOverallScoreQ_bounds profile _ stats).2

end GitHubConnector

namespace TwitterConnector

theorem twMetrics_bounds (profile : TwitterProfile)
    (tweets : List TwitterTweet) :
    (0 ≤ (calculateMetrics profile tweets).engagementScore ∧
      (calculateMetrics profile tweets).engagementScore ≤ 100) ∧
    (0 ≤ (calculateMetrics profile tweets).technicalContentScore ∧
      (calculateMetrics profile tweets).technicalContentScore ≤ 100) ∧
    (0 ≤ (calculateMetrics profile tweets).influenceScore ∧
      (calculateMetrics profile tweets).influenceScore ≤ 100) ∧
    (0 ≤ (calculateMetrics profile tweets).consistencyScore ∧
      (calculateMetrics profile tweets).consistencyScore ≤ 100) ∧
    (0 ≤ (calculateMetrics profile tweets).overallScore ∧
      (calculateMetrics profile tweets).overallScore ≤ 100) := by
  simp only [calculateMetrics]
  split_ifs with h
  · refine ⟨by norm_num, by norm_num, ?_, by norm_num, ?_⟩
    · exact ⟨min100_nonneg (by positivity), min100_le _⟩
    · constructor
      · exact le_min (by positivity) (by norm_num)
      · exact le_trans (min_le_right _ _) (by norm_num)
  · refine ⟨?_, ?_, ?_, ?_, ?_⟩
    · exact jsRoundQ_mem (twEngagementScore_mem profile _).1
        (twEngagementScore_mem profile _).2
    · exact jsRoundQ_mem (twTechnicalContentScore_mem _).1
        (twTechnicalContentScore_mem _).2
    · exact jsRoundQ_mem (twInfluenceScore_mem profile).1
        (twInfluenceScore_mem profile).2
    · exact jsRoundQ_mem (twConsistencyScore_mem _).1
        (twConsistencyScore_mem _).2
    · exact jsRoundQ_mem (twOverallScoreQ_mem profile _).1
        (twOverallScoreQ_mem profile _).2

end TwitterConnector

namespace BlogConnector

theorem blogMetrics_bounds (profile : BlogProfile) (posts : List BlogPost) :
    (0 ≤ (calculateMetrics profile posts).contentQualityScore ∧
      (calculateMetrics profile posts).contentQualityScore ≤ 100) ∧
    (0 ≤ (calculateMetrics profile posts).consistencyScore ∧
      (calculateMetrics profile posts).consistencyScore ≤ 100) ∧
    (0 ≤ (calculateMetrics profile posts).engagementScore ∧
      (calculateMetrics profile posts).engagementScore ≤ 100) ∧
    (0 ≤ (calculateMetrics profile posts).topicDiversityScore ∧
      (calculateMetrics profile posts).topicDiversityScore ≤ 100) ∧
    (0 ≤ (calculateMetrics profile posts).overallScore ∧
      (calculateMetrics profile posts).overallScore ≤ 100) := by
  simp only [calculateMetrics]
  split_ifs with h
  · norm_num
  · refine ⟨?_, ?_, ?_, ?_, ?_⟩
    · exact jsRoundQ_mem (blogContentQualityScore_mem _).1
        (blogContentQualityScore_mem _).2
    · exact jsRoundQ_mem (blogConsistencyScore_mem _).1
        (blogConsistencyScore_mem _).2
    · exact jsRoundQ_mem (blogEngagementScore_mem profile _).1
        (blogEngagementScore_mem profile _).2
    · exact jsRoundQ_mem (blogTopicDiversityScore_mem _).1
        (blogTopicDiversityScore_mem _).2
    · exact jsRoundQ_mem (blogOverallScoreQ_mem profile _).1
        (blogOverallScoreQ_mem profile _).2

end BlogConnector

namespace LinkedInConnector

theorem liMetrics_bounds (now : ℤ × ℤ) (profile : LinkedInProfile)
    (experiences : List LinkedInExperience)
    (education : List LinkedInEducation) (skills : List LinkedInSkill)
    (certifications : List LinkedInCertification) :
    (0 ≤ (calculateMetrics now profile experiences education skills
        certifications).experienceScore ∧
      (calculateMetrics now profile experiences education skills
        certifications).experienceScore ≤ 100) ∧
    (0 ≤ (calculateMetrics now profile experiences education skills
        certifications).educationScore ∧
      (calculateMetrics now profile experiences education skills
        certifications).educationScore ≤ 100) ∧
    (0 ≤ (calculateMetrics now profile experiences education skills
        certifications).skillsScore ∧
      (calculateMetrics now profile experiences education skills
        certifications).skillsScore ≤ 100) ∧
    (0 ≤ (calculateMetrics now profile experiences education skills
        certifications).networkScore ∧
      (calculateMetrics now profile experiences education skills
        certifications).networkScore ≤ 100) ∧
    (0 ≤ (calculateMetrics now profile experiences education skills
        certifications).overallScore ∧
      (calculateMetrics now profile experiences education skills
        certifications).overallScore ≤ 100) := by
  simp only [calculateMetrics]
  refine ⟨?_, ?_, ?_, ?_, ?_⟩
  · exact jsRoundQ_mem (liExperienceScore_mem now _).1 (liExperienceScore_mem now _).2
  · exact jsRoundQ_mem (liEducationScore_mem _).1 (liEducationScore_mem _).2
  · exact jsRoundQ_mem (liSkillsScore_mem _).1 (liSkillsScore_mem _).2
  · exact jsRoundQ_mem (liNetworkScore_mem profile).1 (liNetworkScore_mem profile).2
  · exact jsRoundQ_mem (liOverallScoreQ_mem now profile _ _ _).1
      (liOverallScoreQ_mem now profile _ _ _).2

end LinkedInConnector

namespace AggregationService

theorem optTerm_bounds (o : Option ℚ) (wx : ℚ) (hw : 0 ≤ wx)
    (hb : ∀ s, o = some s → 0 ≤ s ∧ s ≤ 100) :
    0 ≤ optScoreTerm o wx ∧
    optScoreTerm o wx ≤ 100 * (if o.isSome then wx else 0) := by
  cases o with
  | none => simp [optScoreTerm]
  | some s =>
    obtain ⟨h0, h1⟩ := hb s rfl
    refine ⟨mul_nonneg h0 hw, ?_⟩
    simp only [optScoreTerm, Option.isSome_some, if_true]
    simpa [mul_comm] using mul_le_mul_of_nonneg_right h1 hw

theorem blogScoresList_bounds (p : DigitalProfilePlatforms)
    (hd : ∀ d, p.devto = some d →
      0 ≤ d.metrics.overallScore ∧ d.metrics.overallScore ≤ 100)
    (hh : ∀ d, p.hashnode = some d →
      0 ≤ d.metrics.overallScore ∧ d.metrics.overallScore ≤ 100)
    (hm : ∀ d, p.medium = some d →
      0 ≤ d.metrics.overallScore ∧ d.metrics.overallScore ≤ 100) :
    ∀ x ∈ blogScoresList p, 0 ≤ x ∧ x ≤ 100 := by
  intro x hx
  unfold blogScoresList at hx
  rcases List.mem_append.mp hx with hx12 | hx3
  · rcases List.mem_append.mp hx12 with hx1 | hx2
    · cases hp : p.devto with
      | none => rw [hp] at hx1; simp at hx1
      | some d =>
        rw [hp] at hx1
        simp only [Option.map_some', Option.toList_some, List.mem_singleton] at hx1
        subst hx1
        exact hd d hp
    · cases hp : p.hashnode with
      | none => rw [hp] at hx2; simp at hx2
      | some d =>
        rw [hp] at hx2
        simp only [Option.map_some', Option.toList_some, List.mem_singleton] at hx2
        subst hx2
        exact hh d hp
  · cases hp : p.medium with
    | none => rw [hp] at hx3; simp at hx3
    | some d =>
      rw [hp] at hx3
      simp only [Option.map_some', Option.toList_some, List.mem_singleton] at hx3
      subst hx3
      exact hm d hp

theorem blogScore_opt_bounds (p : DigitalProfilePlatforms)
    (hd : ∀ d, p.devto = some d →
      0 ≤ d.metrics.overallScore ∧ d.metrics.overallScore ≤ 100)
    (hh : ∀ d, p.hashnode = some d →
      0 ≤ d.metrics.overallScore ∧ d.metrics.overallScore ≤ 100)
    (hm : ∀ d, p.medium = some d →
      0 ≤ d.metrics.overallScore ∧ d.metrics.overallScore ≤ 100) :
    ∀ s, blogScore? p = some s → 0 ≤ s ∧ s ≤ 100 := by
  intro s hs
  rw [blogScore?] at hs
  split_ifs at hs with hempty
  have hs2 := Option.some.inj hs
  subst hs2
  have hmemb := blogScoresList_bounds p hd hh hm
  have hlen : 0 < (blogScoresList p).length := List.length_pos.mpr hempty
  have hlenQ : (0:ℚ) < ((blogScoresList p).length : ℚ) := by exact_mod_cast hlen
  have hsum0 : 0 ≤ (blogScoresList p).sum :=
    List.sum_nonneg (fun x hx => (hmemb x hx).1)
  have hsum1 : (blogScoresList p).sum ≤ (blogScoresList p).length • (100:ℚ) :=
    List.sum_le_card_nsmul _ _ (fun x hx => (hmemb x hx).2)
  rw [nsmul_eq_mul] at hsum1
  have hmean0 : 0 ≤ (blogScoresList p).sum / ((blogScoresList p).length : ℚ) :=
    div_nonneg hsum0 (le_of_lt hlenQ)
  have hmean1 : (blogScoresList p).sum / ((blogScoresList p).length : ℚ) ≤ 100 := by
    rw [div_le_iff₀ hlenQ]
    calc (blogScoresList p).sum ≤ ((blogScoresList p).length : ℚ) * 100 := hsum1
      _ = 100 * ((blogScoresList p).length : ℚ) := by ring
  exact jsRoundQ_mem hmean0 hmean1

theorem compositeOverall_bounds (w : ScoringWeights)
    (p : DigitalProfilePlatforms)
    (hwg : 0 ≤ w.github) (hwl : 0 ≤ w.linkedin) (hwt : 0 ≤ w.twitter)
    (hwb : 0 ≤ w.blog)
    (hg : ∀ d, p.github = some d →
      0 ≤ d.metrics.overallScore ∧ d.metrics.overallScore ≤ 100)
    (hl : ∀ d, p.linkedin = some d →
      0 ≤ d.metrics.overallScore ∧ d.metrics.overallScore ≤ 100)
    (ht : ∀ d, p.twitter = some d →
      0 ≤ d.metrics.overallScore ∧ d.metrics.overallScore ≤ 100)
    (hd : ∀ d, p.devto = some d →
      0 ≤ d.metrics.overallScore ∧ d.metrics.overallScore ≤ 100)
    (hh : ∀ d, p.hashnode = some d →
      0 ≤ d.metrics.overallScore ∧ d.metrics.overallScore ≤ 100)
    (hm : ∀ d, p.medium = some d →
      0 ≤ d.metrics.overallScore ∧ d.metrics.overallScore ≤ 100) :
    0 ≤ (calculateCompositeScore w p).overallScore ∧
      (calculateCompositeScore w p).overallScore ≤ 100 := by
  have hgb : ∀ s, githubScore? p = some s → 0 ≤ s ∧ s ≤ 100 := by
    intro s hs
    cases hp : p.github with
    | none => rw [githubScore?, hp] at hs; exact absurd hs (by simp)
    | some d =>
      rw [githubScore?, hp] at hs
      obtain rfl : d.metrics.overallScore = s := by simpa using hs
      exact hg d hp
  have hlb : ∀ s, linkedinScore? p = some s → 0 ≤ s ∧ s ≤ 100 := by
    intro s hs
    cases hp : p.linkedin with
    | none => rw [linkedinScore?, hp] at hs; exact absurd hs (by simp)
    | some d =>
      rw [linkedinScore?, hp] at hs
      obtain rfl : d.metrics.overallScore = s := by simpa using hs
      exact hl d hp
  have htb : ∀ s, socialScore? p = some s → 0 ≤ s ∧ s ≤ 100 := by
    intro s hs
    cases hp : p.twitter with
    | none => rw [socialScore?, hp] at hs; exact absurd hs (by simp)
    | some d =>
      rw [socialScore?, hp] at hs
      obtain rfl : d.metrics.overallScore = s := by simpa using hs
      exact ht d hp
  have hbb := blogScore_opt_bounds p hd hh hm
  obtain ⟨g0, g1⟩ := optTerm_bounds (githubScore? p) w.github hwg hgb
  obtain ⟨l0, l1⟩ := optTerm_bounds (linkedinScore? p) w.linkedin hwl hlb
  obtain ⟨t0, t1⟩ := optTerm_bounds (socialScore? p) w.twitter hwt htb
  obtain ⟨b0, b1⟩ := optTerm_bounds (blogScore? p) w.blog hwb hbb
  have hws0 : 0 ≤ weightedSum w p := by
    unfold weightedSum; linarith
  have hws1 : weightedSum w p ≤ 100 * totalWeight w p := by
    unfold weightedSum totalWeight; linarith
  have htw0 : 0 ≤ totalWeight w p := by
    unfold totalWeight
    have a1 : (0:ℚ) ≤ if (githubScore? p).isSome then w.github else 0 := by
      split_ifs <;> simp [hwg]
    have a2 : (0:ℚ) ≤ if (linkedinScore? p).isSome then w.linkedin else 0 := by
      split_ifs <;> simp [hwl]
    have a3 : (0:ℚ) ≤ if (socialScore? p).isSome then w.twitter else 0 := by
      split_ifs <;> simp [hwt]
    have a4 : (0:ℚ) ≤ if (blogScore? p).isSome then w.blog else 0 := by
      split_ifs <;> simp [hwb]
    linarith
  show 0 ≤ overallScore w p ∧ overallScore w p ≤ 100
  unfold overallScore
  split_ifs with hpos
  · refine jsRound_mem_Icc (div_nonneg hws0 htw0) ?_
    rw [div_le_iff₀ hpos]
    linarith
  · norm_num

end AggregationService

section ClaimC4

open AggregationService

/-- C4: for all well-formed inputs (counts are naturals, scores of connected
platform payloads lie in [0,100], weights are nonnegative), every
sub-dimension score and every per-platform overall score produced by the
four calculators lies in [0,100], and the composite overall score is an
integer (the `ℤ`-valued `overallScore` field) in [0,100]. -/
theorem all_calculator_scores_bounded :
    (∀ (profile : GitHubConnector.GitHubUserProfile)
       (repositories : List GitHubConnector.GitHubRepository)
       (stats : GitHubConnector.GitHubContributionStats) (t : ℤ),
      (0 ≤ (GitHubConnector.calculateMetrics profile repositories stats t).codeQualityScore ∧
        (GitHubConnector.calculateMetrics profile repositories stats t).codeQualityScore ≤ 100) ∧
      (0 ≤ (GitHubConnector.calculateMetrics profile repositories stats t).languageDiversity ∧
        (GitHubConnector.calculateMetrics profile repositories stats t).languageDiversity ≤ 100) ∧
      (0 ≤ (GitHubConnector.calculateMetrics profile repositories stats t).commitFrequency ∧
        (GitHubConnector.calculateMetrics profile repositories stats t).commitFrequency ≤ 100) ∧
      (0 ≤ (GitHubConnector.calculateMetrics profile repositories stats t).collaborationScore ∧
        (GitHubConnector.calculateMetrics profile repositories stats t).collaborationScore ≤ 100) ∧
      (0 ≤ (GitHubConnector.calculateMetrics profile repositories stats t).projectImpactScore ∧
        (GitHubConnector.calculateMetrics profile repositories stats t).projectImpactScore ≤ 100) ∧
      (0 ≤ (GitHubConnector.calculateMetrics profile repositories stats t).overallScore ∧
        (GitHubConnector.calculateMetrics profile repositories stats t).overallScore ≤ 100))
    ∧ (∀ (profile : TwitterConnector.TwitterProfile)
         (tweets : List TwitterConnector.TwitterTweet),
        (0 ≤ (TwitterConnector.calculateMetrics profile tweets).engagementScore ∧
          (TwitterConnector.calculateMetrics profile tweets).engagementScore ≤ 100) ∧
        (0 ≤ (TwitterConnector.calculateMetrics profile tweets).technicalContentScore ∧
          (TwitterConnector.calculateMetrics profile tweets).technicalContentScore ≤ 100) ∧
        (0 ≤ (TwitterConnector.calculateMetrics profile tweets).influenceScore ∧
          (TwitterConnector.calculateMetrics profile tweets).influenceScore ≤ 100) ∧
        (0 ≤ (TwitterConnector.calculateMetrics profile tweets).consistencyScore ∧
          (TwitterConnector.calculateMetrics profile tweets).consistencyScore ≤ 100) ∧
        (0 ≤ (TwitterConnector.calculateMetrics profile tweets).overallScore ∧
          (TwitterConnector.calculateMetrics profile tweets).overallScore ≤ 100))
    ∧ (∀ (profile : BlogConnector.BlogProfile)
         (posts : List BlogConnector.BlogPost),
        (0 ≤ (BlogConnector.calculateMetrics profile posts).contentQualityScore ∧
          (BlogConnector.calculateMetrics profile posts).contentQualityScore ≤ 100) ∧
        (0 ≤ (BlogConnector.calculateMetrics profile posts).consistencyScore ∧
          (BlogConnector.calculateMetrics profile posts).consistencyScore ≤ 100) ∧
        (0 ≤ (BlogConnector.calculateMetrics profile posts).engagementScore ∧
          (BlogConnector.calculateMetrics profile posts).engagementScore ≤ 100) ∧
        (0 ≤ (BlogConnector.calculateMetrics profile posts).topicDiversityScore ∧
          (BlogConnector.calculateMetrics profile posts).topicDiversityScore ≤ 100) ∧
        (0 ≤ (BlogConnector.calculateMetrics profile posts).overallScore ∧
          (BlogConnector.calculateMetrics profile posts).overallScore ≤ 100))
    ∧ (∀ (now : ℤ × ℤ) (profile : LinkedInConnector.LinkedInProfile)
         (experiences : List LinkedInConnector.LinkedInExperience)
         (education : List LinkedInConnector.LinkedInEducation)
         (skills : List LinkedInConnector.LinkedInSkill)
         (certifications : List LinkedInConnector.LinkedInCertification),
        (0 ≤ (LinkedInConnector.calculateMetrics now profile experiences education
            skills certifications).experienceScore ∧
          (LinkedInConnector.calculateMetrics now profile experiences education
            skills certifications).experienceScore ≤ 100) ∧
        (0 ≤ (LinkedInConnector.calculateMetrics now profile experiences education
            skills certifications).educationScore ∧
          (LinkedInConnector.calculateMetrics now profile experiences education
            skills certifications).educationScore ≤ 100) ∧
        (0 ≤ (LinkedInConnector.calculateMetrics now profile experiences education
            skills certifications).skillsScore ∧
          (LinkedInConnector.calculateMetrics now profile experiences education
            skills certifications).skillsScore ≤ 100) ∧
        (0 ≤ (LinkedInConnector.calculateMetrics now profile experiences education
            skills certifications).networkScore ∧
          (LinkedInConnector.calculateMetrics now profile experiences education
            skills certifications).networkScore ≤ 100) ∧
        (0 ≤ (LinkedInConnector.calculateMetrics now profile experiences education
            skills certifications).overallScore ∧
          (LinkedInConnector.calculateMetrics now profile experiences education
            skills certifications).overallScore ≤ 100))
    ∧ (∀ (w : ScoringWeights) (p : DigitalProfilePlatforms),
        0 ≤ w.github → 0 ≤ w.linkedin → 0 ≤ w.twitter → 0 ≤ w.blog →
        (∀ d, p.github = some d →
          0 ≤ d.metrics.overallScore ∧ d.metrics.overallScore ≤ 100) →
        (∀ d, p.linkedin = some d →
          0 ≤ d.metrics.overallScore ∧ d.metrics.overallScore ≤ 100) →
        (∀ d, p.twitter = some d →
          0 ≤ d.metrics.overallScore ∧ d.metrics.overallScore ≤ 100) →
        (∀ d, p.devto = some d →
          0 ≤ d.metrics.overallScore ∧ d.metrics.overallScore ≤ 100) →
        (∀ d, p.hashnode = some d →
          0 ≤ d.metrics.overallScore ∧ d.metrics.overallScore ≤ 100) →
        (∀ d, p.medium = some d →
          0 ≤ d.metrics.overallScore ∧ d.metrics.overallScore ≤ 100) →
        0 ≤ (calculateCompositeScore w p).overallScore ∧
          (calculateCompositeScore w p).overallScore ≤ 100) := by
  refine ⟨?_, ?_, ?_, ?_, ?_⟩
  · intro profile repositories stats t
    exact GitHubConnector.ghMetrics_bounds profile repositories stats t
  · intro profile tweets
    exact TwitterConnector.twMetrics_bounds profile tweets
  · intro profile posts
    exact BlogConnector.blogMetrics_bounds profile posts
  · intro now profile experiences education skills certifications
    exact LinkedInConnector.liMetrics_bounds now profile experiences education
      skills certifications
  · intro w p hwg hwl hwt hwb hg hl ht hd hh hm
    exact compositeOverall_bounds w p hwg hwl hwt hwb hg hl ht hd hh hm

/-- Witness for C4: the composite-score bound applied at the default
weights and a profile with a connected GitHub payload scoring 82. -/
theorem all_calculator_scores_bounded_witness :
    0 ≤ (calculateCompositeScore DEFAULT_WEIGHTS
      { github := some (mkPayload 82), linkedin := none, twitter := none,
        devto := none, hashnode := none, medium := none }).overallScore ∧
    (calculateCompositeScore DEFAULT_WEIGHTS
      { github := some (mkPayload 82), linkedin := none, twitter := none,
        devto := none, hashnode := none, medium := none }).overallScore ≤ 100 := by
  refine all_calculator_scores_bounded.2.2.2.2 DEFAULT_WEIGHTS _
    (by norm_num [DEFAULT_WEIGHTS]) (by norm_num [DEFAULT_WEIGHTS])
    (by norm_num [DEFAULT_WEIGHTS]) (by norm_num [DEFAULT_WEIGHTS])
    ?_ ?_ ?_ ?_ ?_ ?_
  · intro d hdd
    obtain rfl : mkPayload 82 = d := Option.some.inj hdd
    norm_num [mkPayload]
  all_goals exact fun d hdd => absurd hdd (by simp)

end ClaimC4

section ClaimC3

open AggregationService

/-- C3: `calculateAndStoreScore` reports `changed = true` exactly when a
previous snapshot exists and its stored overall differs from the current
one, and `changeAmount = current − previous` (or `current` itself when no
previous snapshot exists); consequently, for three successive runs whose
composite overall scores are 50, 50, 70 starting from an empty store, the
second run yields `changed = false`, `changeAmount = 0` and the third run
yields `changed = true`, `changeAmount = 20`. -/
theorem changeDetection_formula (w : ScoringWeights)
    (p : DigitalProfilePlatforms) (c : String) (db : ScoreDb) :
    ((calculateAndStoreScore w p c db).1.current = calculateCompositeScore w p)
    ∧ (latestScoreRecord db c = none →
        (calculateAndStoreScore w p c db).1.changed = false ∧
        (calculateAndStoreScore w p c db).1.changeAmount
          = (calculateCompositeScore w p).overallScore)
    ∧ (∀ rec, latestScoreRecord db c = some rec →
        (((calculateAndStoreScore w p c db).1.changed = true) ↔
          rec.compositeScore ≠ (calculateCompositeScore w p).overallScore)
        ∧ (calculateAndStoreScore w p c db).1.changeAmount
            = (calculateCompositeScore w p).overallScore - rec.compositeScore)
    ∧ (∀ p1 p2 p3 : DigitalProfilePlatforms,
        (calculateCompositeScore w p1).overallScore = 50 →
        (calculateCompositeScore w p2).overallScore = 50 →
        (calculateCompositeScore w p3).overallScore = 70 →
        ((calculateAndStoreScore w p2 c
            (calculateAndStoreScore w p1 c emptyScoreDb).2).1.changed = false)
        ∧ ((calculateAndStoreScore w p2 c
            (calculateAndStoreScore w p1 c emptyScoreDb).2).1.changeAmount = 0)
        ∧ ((calculateAndStoreScore w p3 c
            (calculateAndStoreScore w p2 c
              (calculateAndStoreScore w p1 c emptyScoreDb).2).2).1.changed = true)
        ∧ ((calculateAndStoreScore w p3 c
            (calculateAndStoreScore w p2 c
              (calculateAndStoreScore w p1 c emptyScoreDb).2).2).1.changeAmount
            = 20)) := by
  have hfresh : ∀ (pp : DigitalProfilePlatforms) (dd : ScoreDb),
      latestScoreRecord dd c = none →
      (calculateAndStoreScore w pp c dd).1.changed = false ∧
      (calculateAndStoreScore w pp c dd).1.changeAmount
        = (calculateCompositeScore w pp).overallScore := by
    intro pp dd h
    simp [calculateAndStoreScore, h]
  have hprev : ∀ (pp : DigitalProfilePlatforms) (dd : ScoreDb) rec,
      latestScoreRecord dd c = some rec →
      (((calculateAndStoreScore w pp c dd).1.changed = true) ↔
        rec.compositeScore ≠ (calculateCompositeScore w pp).overallScore)
      ∧ (calculateAndStoreScore w pp c dd).1.changeAmount
          = (calculateCompositeScore w pp).overallScore - rec.compositeScore := by
    intro pp dd rec h
    constructor
    · constructor
      · intro hch
        simp only [calculateAndStoreScore, h] at hch
        simpa [recordToComposite] using of_decide_eq_true hch
      · intro hne
        simp [calculateAndStoreScore, h, recordToComposite, hne]
    · simp [calculateAndStoreScore, h, recordToComposite]
  refine ⟨rfl, hfresh p db, hprev p db, ?_⟩
  intro p1 p2 p3 h1 h2 h3
  have e2 : latestScoreRecord (calculateAndStoreScore w p1 c emptyScoreDb).2 c
      = some
        { id := 0, candidateId := c,
          compositeScore := (calculateCompositeScore w p1).overallScore,
          githubScore := (calculateCompositeScore w p1).githubScore,
          linkedinScore := (calculateCompositeScore w p1).linkedinScore,
          blogScore := (calculateCompositeScore w p1).blogScore,
          socialScore := (calculateCompositeScore w p1).socialScore,
          strengths := (calculateCompositeScore w p1).strengths,
          improvements := (calculateCompositeScore w p1).improvements,
          createdAt := 0, updatedAt := 0 } := by
    simp [calculateAndStoreScore, latestScoreRecord, upsertScore, emptyScoreDb]
  have e3 : latestScoreRecord (calculateAndStoreScore w p2 c
      (calculateAndStoreScore w p1 c emptyScoreDb).2).2 c
      = some
        { id := 0, candidateId := c,
          compositeScore := (calculateCompositeScore w p2).overallScore,
          githubScore := (calculateCompositeScore w p2).githubScore,
          linkedinScore := (calculateCompositeScore w p2).linkedinScore,
          blogScore := (calculateCompositeScore w p2).blogScore,
          socialScore := (calculateCompositeScore w p2).socialScore,
          strengths := (calculateCompositeScore w p2).strengths,
          improvements := (calculateCompositeScore w p2).improvements,
          createdAt := 0, updatedAt := 1 } := by
    simp [calculateAndStoreScore, latestScoreRecord, upsertScore, emptyScoreDb, e2]
  obtain ⟨hiff2, hamt2⟩ := hprev p2 _ _ e2
  obtain ⟨hiff3, hamt3⟩ := hprev p3 _ _ e3
  refine ⟨?_, ?_, ?_, ?_⟩
  · rcases Bool.eq_false_or_eq_true
        ((calculateAndStoreScore w p2 c
          (calculateAndStoreScore w p1 c emptyScoreDb).2).1.changed) with hb | hb
    · exact absurd (hiff2.mp hb) (by simp [h1, h2])
    · exact hb
  · rw [hamt2]
    simp [h1, h2]
  · exact hiff3.mpr (by simp [h2, h3])
  · rw [hamt3]
    simp [h2, h3]

end ClaimC3

namespace AggregationService

/-- A digital profile with only a GitHub family connected, at overall
score `s` (helper for concrete instances). -/
def ghOnly (s : ℚ) : DigitalProfilePlatforms :=
  { github := some (mkPayload s), linkedin := none, twitter := none,
    devto := none, hashnode := none, medium := none }

theorem ghOnly_overall (s : ℚ) (n : ℤ) (h : jsRound s = n) :
    (calculateCompositeScore DEFAULT_WEIGHTS (ghOnly s)).overallScore = n := by
  show overallScore DEFAULT_WEIGHTS (ghOnly s) = n
  have htw : totalWeight DEFAULT_WEIGHTS (ghOnly s) = 35/100 := by
    simp [totalWeight, githubScore?, linkedinScore?, socialScore?, blogScore?,
      blogScoresList, ghOnly, mkPayload, DEFAULT_WEIGHTS]
  have hws : weightedSum DEFAULT_WEIGHTS (ghOnly s) = s * (35/100) := by
    simp [weightedSum, optScoreTerm, githubScore?, linkedinScore?,
      socialScore?, blogScore?, blogScoresList, ghOnly, mkPayload,
      DEFAULT_WEIGHTS]
  rw [overallScore, htw, hws, if_pos (by norm_num)]
  rw [show s * (35/100) / (35/100) = s by field_simp]
  exact h

end AggregationService

section ClaimC3W

open AggregationService

/-- Witness for C3: the [50, 50, 70] scenario at the default weights with
single-GitHub profiles scoring 50, 50 and 70. -/
theorem changeDetection_formula_witness :
    ((calculateAndStoreScore DEFAULT_WEIGHTS (ghOnly 50) "cand"
        (calculateAndStoreScore DEFAULT_WEIGHTS (ghOnly 50) "cand"
          emptyScoreDb).2).1.changed = false)
    ∧ ((calculateAndStoreScore DEFAULT_WEIGHTS (ghOnly 50) "cand"
        (calculateAndStoreScore DEFAULT_WEIGHTS (ghOnly 50) "cand"
          emptyScoreDb).2).1.changeAmount = 0)
    ∧ ((calculateAndStoreScore DEFAULT_WEIGHTS (ghOnly 70) "cand"
        (calculateAndStoreScore DEFAULT_WEIGHTS (ghOnly 50) "cand"
          (calculateAndStoreScore DEFAULT_WEIGHTS (ghOnly 50) "cand"
            emptyScoreDb).2).2).1.changed = true)
    ∧ ((calculateAndStoreScore DEFAULT_WEIGHTS (ghOnly 70) "cand"
        (calculateAndStoreScore DEFAULT_WEIGHTS (ghOnly 50) "cand"
          (calculateAndStoreScore DEFAULT_WEIGHTS (ghOnly 50) "cand"
            emptyScoreDb).2).2).1.changeAmount = 20) := by
  have h50 : (calculateCompositeScore DEFAULT_WEIGHTS (ghOnly 50)).overallScore = 50 :=
    ghOnly_overall 50 50 (by norm_num [jsRound])
  have h70 : (calculateCompositeScore DEFAULT_WEIGHTS (ghOnly 70)).overallScore = 70 :=
    ghOnly_overall 70 70 (by norm_num [jsRound])
  exact (changeDetection_formula DEFAULT_WEIGHTS (ghOnly 50) "cand"
    emptyScoreDb).2.2.2 (ghOnly 50) (ghOnly 50) (ghOnly 70) h50 h50 h70

end ClaimC3W

section ClaimC2

open AggregationService

/-- C2 (evaluation of the code at the failing input): two successive
`calculateAndStoreScore` runs for the same candidate, producing overall
scores 50 then 70, leave a store with a single record — the second run's
`upsert` probes the previous record's id and overwrites it in place — so
`getScoreHistory` returns one entry, not two, and the snapshot created by
the first run (id 0, `createdAt` 0, score 50) has been mutated to score
70. -/
theorem snapshot_append_only_violated :
    ((getScoreHistory DEFAULT_WEIGHTS
        (calculateAndStoreScore DEFAULT_WEIGHTS (ghOnly 50) "cand"
          emptyScoreDb).2 "cand" 10).length = 1)
    ∧ ((calculateAndStoreScore DEFAULT_WEIGHTS (ghOnly 50) "cand"
          emptyScoreDb).2.records.map
        (fun r => (r.id, r.createdAt, r.compositeScore)) = [(0, 0, 50)])
    ∧ ((getScoreHistory DEFAULT_WEIGHTS
        (calculateAndStoreScore DEFAULT_WEIGHTS (ghOnly 70) "cand"
          (calculateAndStoreScore DEFAULT_WEIGHTS (ghOnly 50) "cand"
            emptyScoreDb).2).2 "cand" 10).length = 1)
    ∧ ((calculateAndStoreScore DEFAULT_WEIGHTS (ghOnly 70) "cand"
          (calculateAndStoreScore DEFAULT_WEIGHTS (ghOnly 50) "cand"
            emptyScoreDb).2).2.records.map
        (fun r => (r.id, r.createdAt, r.compositeScore)) = [(0, 0, 70)]) := by
  have h50 : (calculateCompositeScore DEFAULT_WEIGHTS (ghOnly 50)).overallScore = 50 :=
    ghOnly_overall 50 50 (by norm_num [jsRound])
  have h70 : (calculateCompositeScore DEFAULT_WEIGHTS (ghOnly 70)).overallScore = 70 :=
    ghOnly_overall 70 70 (by norm_num [jsRound])
  refine ⟨?_, ?_, ?_, ?_⟩ <;>
    simp [calculateAndStoreScore, upsertScore, latestScoreRecord,
      getScoreHistory, sortByCreatedDesc, insertByCreatedDesc, emptyScoreDb,
      h50, h70]

end ClaimC2

section ClaimC9

open AggregationService ScoreUpdateService

/-- C9 amended: because stored snapshots keep no recommendations, the
previous score reconstructed from storage always carries an empty
recommendations list, so the new-recommendations event of
`onPlatformDataChanged` is emitted exactly when the current score's
recommendations list is nonempty, and its payload is the entire current
recommendations list (the set difference degenerates to the full list). -/
theorem newRecommendations_event_is_full_current_list
    (w : ScoringWeights) (p : DigitalProfilePlatforms) (c : String)
    (db : ScoreDb) :
    (onPlatformDataChanged w p c db).newRecsEvent
      = if (calculateCompositeScore w p).recommendations = [] then none
        else some (calculateCompositeScore w p).recommendations := by
  have hfilter : ∀ l : List String,
      l.filter (fun r => ¬ (([] : List String).contains r)) = l := by
    intro l
    apply List.filter_eq_self.mpr
    intro a _
    simp
  unfold onPlatformDataChanged
  cases hl : latestScoreRecord db c with
  | none =>
    by_cases hrec : (calculateCompositeScore w p).recommendations = []
    · simp [calculateAndStoreScore, hl, hrec]
    · have hlen : 0 < (calculateCompositeScore w p).recommendations.length :=
        List.length_pos.mpr hrec
      simp [calculateAndStoreScore, hl, hrec, hlen]
  | some rec =>
    by_cases hrec : (calculateCompositeScore w p).recommendations = []
    · simp [calculateAndStoreScore, hl, hrec]
    · have hlen : 0 < (calculateCompositeScore w p).recommendations.length :=
        List.length_pos.mpr hrec
      simp [calculateAndStoreScore, hl, hrec, hlen, recordToComposite, hfilter]

/-- The profile with no connected platform. -/
def pNoPlatform : DigitalProfilePlatforms :=
  { github := none, linkedin := none, twitter := none,
    devto := none, hashnode := none, medium := none }

/-- C9 counterexample: running the change-detection step twice on the same
(empty) profile, the second run's most recent prior snapshot corresponds
to a score whose recommendations were exactly the connect-more-platforms
entry; the set difference current − previous is therefore empty, yet the
code emits a new-recommendations event carrying the full (unchanged)
list — because the previous score is rebuilt from storage with
`recommendations: []`. -/
theorem newRecommendations_event_diff_counterexample :
    ((onPlatformDataChanged DEFAULT_WEIGHTS pNoPlatform "cand"
        emptyScoreDb).result.current.recommendations
      = [connectMoreMsg ["github", "linkedin", "twitter", "blog"]])
    ∧ ((onPlatformDataChanged DEFAULT_WEIGHTS pNoPlatform "cand"
        (onPlatformDataChanged DEFAULT_WEIGHTS pNoPlatform "cand"
          emptyScoreDb).db).newRecsEvent
      = some [connectMoreMsg ["github", "linkedin", "twitter", "blog"]])
    ∧ ([connectMoreMsg ["github", "linkedin", "twitter", "blog"]].filter
        (fun r => ¬ ([connectMoreMsg
          ["github", "linkedin", "twitter", "blog"]].contains r)) = []) := by
  have hrecs : (calculateCompositeScore DEFAULT_WEIGHTS
      pNoPlatform).recommendations
      = [connectMoreMsg ["github", "linkedin", "twitter", "blog"]] := by
    show (dedupKeepFirst (allRecommendations pNoPlatform)).take 10 = _
    have hall : allRecommendations pNoPlatform
        = [connectMoreMsg ["github", "linkedin", "twitter", "blog"]] := by
      simp [allRecommendations, recsOf, pNoPlatform, platformsMissing,
        blogScoresList]
    rw [hall]
    simp [dedupKeepFirst, dedupSeen]
  have hfilter : ∀ l : List String,
      l.filter (fun r => ¬ (([] : List String).contains r)) = l := by
    intro l
    apply List.filter_eq_self.mpr
    intro a _
    simp
  refine ⟨hrecs, ?_, ?_⟩
  · have hdb1 : (onPlatformDataChanged DEFAULT_WEIGHTS pNoPlatform "cand"
        emptyScoreDb).db
        = { records :=
            [{ id := 0, candidateId := "cand",
               compositeScore := (calculateCompositeScore DEFAULT_WEIGHTS
                 pNoPlatform).overallScore,
               githubScore := (calculateCompositeScore DEFAULT_WEIGHTS
                 pNoPlatform).githubScore,
               linkedinScore := (calculateCompositeScore DEFAULT_WEIGHTS
                 pNoPlatform).linkedinScore,
               blogScore := (calculateCompositeScore DEFAULT_WEIGHTS
                 pNoPlatform).blogScore,
               socialScore := (calculateCompositeScore DEFAULT_WEIGHTS
                 pNoPlatform).socialScore,
               strengths := (calculateCompositeScore DEFAULT_WEIGHTS
                 pNoPlatform).strengths,
               improvements := (calculateCompositeScore DEFAULT_WEIGHTS
                 pNoPlatform).improvements,
               createdAt := 0, updatedAt := 0 }],
            nextId := 1, clock := 1 } := by
      simp [onPlatformDataChanged, calculateAndStoreScore, upsertScore,
        latestScoreRecord, emptyScoreDb]
    rw [hdb1]
    have hl2 : latestScoreRecord
        { records :=
            [{ id := 0, candidateId := "cand",
               compositeScore := (calculateCompositeScore DEFAULT_WEIGHTS
                 pNoPlatform).overallScore,
               githubScore := (calculateCompositeScore DEFAULT_WEIGHTS
                 pNoPlatform).githubScore,
               linkedinScore := (calculateCompositeScore DEFAULT_WEIGHTS
                 pNoPlatform).linkedinScore,
               blogScore := (calculateCompositeScore DEFAULT_WEIGHTS
                 pNoPlatform).blogScore,
               socialScore := (calculateCompositeScore DEFAULT_WEIGHTS
                 pNoPlatform).socialScore,
               strengths := (calculateCompositeScore DEFAULT_WEIGHTS
                 pNoPlatform).strengths,
               improvements := (calculateCompositeScore DEFAULT_WEIGHTS
                 pNoPlatform).improvements,
               createdAt := 0, updatedAt := 0 }],
          nextId := 1, clock := 1 } "cand"
        = some
          { id := 0, candidateId := "cand",
            compositeScore := (calculateCompositeScore DEFAULT_WEIGHTS
              pNoPlatform).overallScore,
            githubScore := (calculateCompositeScore DEFAULT_WEIGHTS
              pNoPlatform).githubScore,
            linkedinScore := (calculateCompositeScore DEFAULT_WEIGHTS
              pNoPlatform).linkedinScore,
            blogScore := (calculateCompositeScore DEFAULT_WEIGHTS
              pNoPlatform).blogScore,
            socialScore := (calculateCompositeScore DEFAULT_WEIGHTS
              pNoPlatform).socialScore,
            strengths := (calculateCompositeScore DEFAULT_WEIGHTS
              pNoPlatform).strengths,
            improvements := (calculateCompositeScore DEFAULT_WEIGHTS
              pNoPlatform).improvements,
            createdAt := 0, updatedAt := 0 } := by
      simp [latestScoreRecord]
    simp [onPlatformDataChanged, calculateAndStoreScore, hl2,
      recordToComposite, hrecs, hfilter]
  · simp [List.filter]

end ClaimC9

/-! ## Monotonicity infrastructure

Each calculator input is either a field of the profile/stats records or a
numeric field of one activity item sitting at an arbitrary position in the
activity list (`pre ++ item :: post`). The lemmas below decompose the
aggregate counts and sums over such a list. -/

theorem filterLength_middle {α : Type} (p : α → Bool) (P Q : List α)
    (a b : α) (h : p a = p b) :
    ((P ++ a :: Q).filter p).length = ((P ++ b :: Q).filter p).length := by
  simp only [List.filter_append, List.filter_cons, h, List.length_append]
  split_ifs <;> simp

theorem mapSum_middle {α : Type} (f : α → ℕ) (P Q : List α) (a : α) :
    ((P ++ a :: Q).map f).sum = ((P ++ Q).map f).sum + f a := by
  simp only [List.map_append, List.map_cons, List.sum_append, List.sum_cons]
  omega

theorem flatMap_middle_congr {α β : Type} (g : α → List β) (P Q : List α)
    (a b : α) (h : g a = g b) :
    (P ++ a :: Q).flatMap g = (P ++ b :: Q).flatMap g := by
  simp only [List.flatMap_append, List.flatMap_cons, h]

theorem map_middle_congr {α β : Type} (f : α → β) (P Q : List α)
    (a b : α) (h : f a = f b) :
    (P ++ a :: Q).map f = (P ++ b :: Q).map f := by
  simp only [List.map_append, List.map_cons, h]

namespace GitHubConnector

theorem calculateMetrics_overall (profile : GitHubUserProfile)
    (repositories : List GitHubRepository)
    (stats : GitHubContributionStats) (t : ℤ) :
    (calculateMetrics profile repositories stats t).overallScore
      = jsRound (overallScoreQ profile (ownRepos repositories) stats) := rfl

/-- Increasing one repository's star count never decreases the GitHub
overall score. -/
theorem gh_mono_stars (profile : GitHubUserProfile)
    (stats : GitHubContributionStats) (t : ℤ)
    (pre post : List GitHubRepository) (r : GitHubRepository) (k : ℕ) :
    (calculateMetrics profile (pre ++ r :: post) stats t).overallScore
      ≤ (calculateMetrics profile
          (pre ++ { r with stargazersCount := r.stargazersCount + k } :: post)
          stats t).overallScore := by
  rw [calculateMetrics_overall, calculateMetrics_overall]
  by_cases hf : r.isForked
  · have hown : ownRepos (pre ++ { r with stargazersCount :=
        r.stargazersCount + k } :: post) = ownRepos (pre ++ r :: post) := by
      simp only [ownRepos, List.filter_append, List.filter_cons]
      simp [hf]
    rw [hown]
  · have hown : ownRepos (pre ++ r :: post)
        = ownRepos pre ++ r :: ownRepos post := by
      simp only [ownRepos, List.filter_append, List.filter_cons]
      simp [hf]
    have hown' : ownRepos (pre ++ { r with stargazersCount :=
        r.stargazersCount + k } :: post)
        = ownRepos pre ++ { r with stargazersCount :=
            r.stargazersCount + k } :: ownRepos post := by
      simp only [ownRepos, List.filter_append, List.filter_cons]
      simp [hf]
    rw [hown, hown']
    apply jsRound_mono
    set P := ownRepos pre
    set Q := ownRepos post
    set r' : GitHubRepository := { r with stargazersCount := r.stargazersCount + k }
    have e1 : hasReadme (P ++ r' :: Q) = hasReadme (P ++ r :: Q) :=
      filterLength_middle _ P Q r' r rfl
    have e2 : hasLicense (P ++ r' :: Q) = hasLicense (P ++ r :: Q) :=
      filterLength_middle _ P Q r' r rfl
    have e3 : hasTopics (P ++ r' :: Q) = hasTopics (P ++ r :: Q) :=
      filterLength_middle _ P Q r' r rfl
    have e4 : (P ++ r' :: Q).length = (P ++ r :: Q).length := by simp
    have e5 : uniqueLanguagesCount (P ++ r' :: Q)
        = uniqueLanguagesCount (P ++ r :: Q) := by
      unfold uniqueLanguagesCount
      rw [flatMap_middle_congr
        (fun rep : GitHubRepository => rep.languages.map Prod.fst)
        P Q r' r rfl]
    have e6 : totalForks (P ++ r' :: Q) = totalForks (P ++ r :: Q) := by
      unfold totalForks
      rw [mapSum_middle, mapSum_middle]
    have e8 : totalStars (P ++ r' :: Q) = totalStars (P ++ Q) +
        (r.stargazersCount + k) := by
      unfold totalStars
      rw [mapSum_middle]
    have e9 : totalStars (P ++ r :: Q) = totalStars (P ++ Q) +
        r.stargazersCount := by
      unfold totalStars
      rw [mapSum_middle]
    unfold overallScoreQ codeQualityScore languageDiversity commitFrequency
      collaborationScore projectImpactScore
    rw [e1, e2, e3, e4, e5, e6, e8, e9]
    gcongr <;> omega

end GitHubConnector

namespace GitHubConnector

/-- Increasing one repository's fork count never decreases the GitHub
overall score. -/
theorem gh_mono_forks (profile : GitHubUserProfile)
    (stats : GitHubContributionStats) (t : ℤ)
    (pre post : List GitHubRepository) (r : GitHubRepository) (k : ℕ) :
    (calculateMetrics profile (pre ++ r :: post) stats t).overallScore
      ≤ (calculateMetrics profile
          (pre ++ { r with forksCount := r.forksCount + k } :: post)
          stats t).overallScore := by
  rw [calculateMetrics_overall, calculateMetrics_overall]
  by_cases hf : r.isForked
  · have hown : ownRepos (pre ++ { r with forksCount :=
        r.forksCount + k } :: post) = ownRepos (pre ++ r :: post) := by
      simp only [ownRepos, List.filter_append, List.filter_cons]
      simp [hf]
    rw [hown]
  · have hown : ownRepos (pre ++ r :: post)
        = ownRepos pre ++ r :: ownRepos post := by
      simp only [ownRepos, List.filter_append, List.filter_cons]
      simp [hf]
    have hown' : ownRepos (pre ++ { r with forksCount :=
        r.forksCount + k } :: post)
        = ownRepos pre ++ { r with forksCount :=
            r.forksCount + k } :: ownRepos post := by
      simp only [ownRepos, List.filter_append, List.filter_cons]
      simp [hf]
    rw [hown, hown']
    apply jsRound_mono
    set P := ownRepos pre
    set Q := ownRepos post
    set r' : GitHubRepository := { r with forksCount := r.forksCount + k }
    have e1 : hasReadme (P ++ r' :: Q) = hasReadme (P ++ r :: Q) :=
      filterLength_middle _ P Q r' r rfl
    have e2 : hasLicense (P ++ r' :: Q) = hasLicense (P ++ r :: Q) :=
      filterLength_middle _ P Q r' r rfl
    have e3 : hasTopics (P ++ r' :: Q) = hasTopics (P ++ r :: Q) :=
      filterLength_middle _ P Q r' r rfl
    have e4 : (P ++ r' :: Q).length = (P ++ r :: Q).length := by simp
    have e5 : uniqueLanguagesCount (P ++ r' :: Q)
        = uniqueLanguagesCount (P ++ r :: Q) := by
      unfold uniqueLanguagesCount
      rw [flatMap_middle_congr
        (fun rep : GitHubRepository => rep.languages.map Prod.fst)
        P Q r' r rfl]
    have e6 : totalStars (P ++ r' :: Q) = totalStars (P ++ r :: Q) := by
      unfold totalStars
      rw [mapSum_middle, mapSum_middle]
    have e8 : totalForks (P ++ r' :: Q) = totalForks (P ++ Q) +
        (r.forksCount + k) := by
      unfold totalForks
      rw [mapSum_middle]
    have e9 : totalForks (P ++ r :: Q) = totalForks (P ++ Q) +
        r.forksCount := by
      unfold totalForks
      rw [mapSum_middle]
    unfold overallScoreQ codeQualityScore languageDiversity commitFrequency
      collaborationScore projectImpactScore
    rw [e1, e2, e3, e4, e5, e6, e8, e9]
    gcongr <;> omega

/-- Increasing the profile follower count never decreases the GitHub
overall score. -/
theorem gh_mono_followers (profile : GitHubUserProfile)
    (repositories : List GitHubRepository)
    (stats : GitHubContributionStats) (t : ℤ) (k : ℕ) :
    (calculateMetrics profile repositories stats t).overallScore
      ≤ (calculateMetrics { profile with followers := profile.followers + k }
          repositories stats t).overallScore := by
  rw [calculateMetrics_overall, calculateMetrics_overall]
  apply jsRound_mono
  have hp : ({ profile with followers := profile.followers + k }
      : GitHubUserProfile).followers = profile.followers + k := rfl
  unfold overallScoreQ codeQualityScore languageDiversity commitFrequency
    collaborationScore projectImpactScore
  rw [hp]
  gcongr <;> omega

/-- Increasing the commit total never decreases the GitHub overall score. -/
theorem gh_mono_commits (profile : GitHubUserProfile)
    (repositories : List GitHubRepository)
    (stats : GitHubContributionStats) (t : ℤ) (k : ℕ) :
    (calculateMetrics profile repositories stats t).overallScore
      ≤ (calculateMetrics profile repositories
          { stats with totalCommits := stats.totalCommits + k } t).overallScore := by
  rw [calculateMetrics_overall, calculateMetrics_overall]
  apply jsRound_mono
  have hc : ({ stats with totalCommits := stats.totalCommits + k }
      : GitHubContributionStats).totalCommits = stats.totalCommits + k := rfl
  unfold overallScoreQ codeQualityScore languageDiversity commitFrequency
    collaborationScore projectImpactScore
  rw [hc]
  gcongr <;> omega

/-- Increasing the pull-request total never decreases the GitHub overall
score. -/
theorem gh_mono_prs (profile : GitHubUserProfile)
    (repositories : List GitHubRepository)
    (stats : GitHubContributionStats) (t : ℤ) (k : ℕ) :
    (calculateMetrics profile repositories stats t).overallScore
      ≤ (calculateMetrics profile repositories
          { stats with totalPRs := stats.totalPRs + k } t).overallScore := by
  rw [calculateMetrics_overall, calculateMetrics_overall]
  apply jsRound_mono
  have hc : ({ stats with totalPRs := stats.totalPRs + k }
      : GitHubContributionStats).totalPRs = stats.totalPRs + k := rfl
  unfold overallScoreQ codeQualityScore languageDiversity commitFrequency
    collaborationScore projectImpactScore
  rw [hc]
  gcongr <;> omega

/-- Increasing the issue total never decreases the GitHub overall score. -/
theorem gh_mono_issues (profile : GitHubUserProfile)
    (repositories : List GitHubRepository)
    (stats : GitHubContributionStats) (t : ℤ) (k : ℕ) :
    (calculateMetrics profile repositories stats t).overallScore
      ≤ (calculateMetrics profile repositories
          { stats with totalIssues := stats.totalIssues + k } t).overallScore := by
  rw [calculateMetrics_overall, calculateMetrics_overall]
  apply jsRound_mono
  have hc : ({ stats with totalIssues := stats.totalIssues + k }
      : GitHubContributionStats).totalIssues = stats.totalIssues + k := rfl
  unfold overallScoreQ codeQualityScore languageDiversity commitFrequency
    collaborationScore projectImpactScore
  rw [hc]
  gcongr <;> omega

/-- Increasing the review total never decreases the GitHub overall score. -/
theorem gh_mono_reviews (profile : GitHubUserProfile)
    (repositories : List GitHubRepository)
    (stats : GitHubContributionStats) (t : ℤ) (k : ℕ) :
    (calculateMetrics profile repositories stats t).overallScore
      ≤ (calculateMetrics profile repositories
          { stats with totalReviews := stats.totalReviews + k } t).overallScore := by
  rw [calculateMetrics_overall, calculateMetrics_overall]
  apply jsRound_mono
  have hc : ({ stats with totalReviews := stats.totalReviews + k }
      : GitHubContributionStats).totalReviews = stats.totalReviews + k := rfl
  unfold overallScoreQ codeQualityScore languageDiversity commitFrequency
    collaborationScore projectImpactScore
  rw [hc]
  gcongr <;> omega

end GitHubConnector


namespace TwitterConnector

theorem calculateMetrics_nonempty (profile : TwitterProfile)
    (tweets : List TwitterTweet) (h : originalTweets tweets ≠ []) :
    (calculateMetrics profile tweets).overallScore
      = ((jsRound (overallScoreQ profile (originalTweets tweets)) : ℤ) : ℚ) := by
  unfold calculateMetrics
  rw [if_neg (by simpa [List.length_eq_zero] using h)]

/-- Increasing one original tweet's like count never decreases the Twitter
overall score. -/
theorem tw_mono_likes (profile : TwitterProfile)
    (pre post : List TwitterTweet) (tw : TwitterTweet) (k : ℕ) :
    (calculateMetrics profile (pre ++ tw :: post)).overallScore
      ≤ (calculateMetrics profile
          (pre ++ { tw with likes := tw.likes + k } :: post)).overallScore := by
  set tw' : TwitterTweet := { tw with likes := tw.likes + k } with htw'
  by_cases hrt : tw.isRetweet
  · have horig : originalTweets (pre ++ tw' :: post)
        = originalTweets (pre ++ tw :: post) := by
      simp only [originalTweets, List.filter_append, List.filter_cons]
      simp [hrt]
    unfold calculateMetrics
    rw [horig]
  · have hO : originalTweets (pre ++ tw :: post)
        = originalTweets pre ++ tw :: originalTweets post := by
      simp only [originalTweets, List.filter_append, List.filter_cons]
      simp [hrt]
    have hO' : originalTweets (pre ++ tw' :: post)
        = originalTweets pre ++ tw' :: originalTweets post := by
      simp only [originalTweets, List.filter_append, List.filter_cons]
      simp [hrt]
    rw [calculateMetrics_nonempty _ _ (by rw [hO]; simp),
      calculateMetrics_nonempty _ _ (by rw [hO']; simp), hO, hO']
    set OP := originalTweets pre
    set OQ := originalTweets post
    have elen : (OP ++ tw' :: OQ).length = (OP ++ tw :: OQ).length := by simp
    have elenpos : (0:ℚ) < ((OP ++ tw :: OQ).length : ℚ) := by
      have h0 : 0 < (OP ++ tw :: OQ).length := by simp
      exact_mod_cast h0
    have eLikes : totalLikes (OP ++ tw :: OQ) ≤ totalLikes (OP ++ tw' :: OQ) := by
      have hk : tw'.likes = tw.likes + k := rfl
      unfold totalLikes
      rw [mapSum_middle, mapSum_middle, hk]
      omega
    have eRet : totalRetweets (OP ++ tw' :: OQ)
        = totalRetweets (OP ++ tw :: OQ) := by
      unfold totalRetweets
      rw [mapSum_middle, mapSum_middle]
    have hAvgL : avgLikes (OP ++ tw :: OQ) ≤ avgLikes (OP ++ tw' :: OQ) := by
      unfold avgLikes
      rw [elen]
      have hc : (totalLikes (OP ++ tw :: OQ) : ℚ)
          ≤ (totalLikes (OP ++ tw' :: OQ) : ℚ) := by exact_mod_cast eLikes
      gcongr
    have eAvgR : avgRetweets (OP ++ tw' :: OQ) = avgRetweets (OP ++ tw :: OQ) := by
      unfold avgRetweets
      rw [eRet, elen]
    have hRate : engagementRate profile (OP ++ tw :: OQ)
        ≤ engagementRate profile (OP ++ tw' :: OQ) := by
      unfold engagementRate
      split_ifs with hfo
      · have hE : totalEngagement (OP ++ tw :: OQ)
            ≤ totalEngagement (OP ++ tw' :: OQ) := by
          unfold totalEngagement
          omega
        have hEQ : (totalEngagement (OP ++ tw :: OQ) : ℚ)
            ≤ (totalEngagement (OP ++ tw' :: OQ) : ℚ) := by exact_mod_cast hE
        have hfoQ : (0:ℚ) < (profile.followers : ℚ) := by exact_mod_cast hfo
        rw [elen]
        gcongr
      · exact le_refl 0
    have hEng : engagementScore profile (OP ++ tw :: OQ)
        ≤ engagementScore profile (OP ++ tw' :: OQ) := by
      unfold engagementScore
      refine min_le_min ?_ (le_refl _)
      have s1 := @satTerm_mono 10 40 _ _ (fun z => z * 4)
        (fun a b hab => mul_le_mul_of_nonneg_right hab (by norm_num))
        (fun z hz => by show z * 4 ≤ 40; linarith) hAvgL
      have s3 := @satTerm_mono 1 30 _ _ (fun z => z * 30)
        (fun a b hab => mul_le_mul_of_nonneg_right hab (by norm_num))
        (fun z hz => by show z * 30 ≤ 30; linarith) hRate
      rw [eAvgR]
      linarith
    have eTech : technicalTweetRatio (OP ++ tw' :: OQ)
        = technicalTweetRatio (OP ++ tw :: OQ) := by
      unfold technicalTweetRatio
      rw [filterLength_middle isTechnicalTweet OP OQ tw' tw rfl, elen]
    have eCons : consistencyScore (OP ++ tw' :: OQ)
        = consistencyScore (OP ++ tw :: OQ) := by
      unfold consistencyScore tweetsPerWeek firstCreatedAt lastCreatedAt
      rw [map_middle_congr (fun u : TwitterTweet => u.createdAtMs)
        OP OQ tw' tw rfl, elen]
    have hmain : overallScoreQ profile (OP ++ tw :: OQ)
        ≤ overallScoreQ profile (OP ++ tw' :: OQ) := by
      unfold overallScoreQ technicalContentScore
      rw [eTech, eCons]
      linarith
    exact_mod_cast jsRound_mono hmain

/-- Increasing one original tweet's retweet count never decreases the
Twitter overall score. -/
theorem tw_mono_retweets (profile : TwitterProfile)
    (pre post : List TwitterTweet) (tw : TwitterTweet) (k : ℕ) :
    (calculateMetrics profile (pre ++ tw :: post)).overallScore
      ≤ (calculateMetrics profile
          (pre ++ { tw with retweets := tw.retweets + k } :: post)).overallScore := by
  set tw' : TwitterTweet := { tw with retweets := tw.retweets + k } with htw'
  by_cases hrt : tw.isRetweet
  · have horig : originalTweets (pre ++ tw' :: post)
        = originalTweets (pre ++ tw :: post) := by
      simp only [originalTweets, List.filter_append, List.filter_cons]
      simp [hrt]
    unfold calculateMetrics
    rw [horig]
  · have hO : originalTweets (pre ++ tw :: post)
        = originalTweets pre ++ tw :: originalTweets post := by
      simp only [originalTweets, List.filter_append, List.filter_cons]
      simp [hrt]
    have hO' : originalTweets (pre ++ tw' :: post)
        = originalTweets pre ++ tw' :: originalTweets post := by
      simp only [originalTweets, List.filter_append, List.filter_cons]
      simp [hrt]
    rw [calculateMetrics_nonempty _ _ (by rw [hO]; simp),
      calculateMetrics_nonempty _ _ (by rw [hO']; simp), hO, hO']
    set OP := originalTweets pre
    set OQ := originalTweets post
    have elen : (OP ++ tw' :: OQ).length = (OP ++ tw :: OQ).length := by simp
    have elenpos : (0:ℚ) < ((OP ++ tw :: OQ).length : ℚ) := by
      have h0 : 0 < (OP ++ tw :: OQ).length := by simp
      exact_mod_cast h0
    have eRet : totalRetweets (OP ++ tw :: OQ) ≤ totalRetweets (OP ++ tw' :: OQ) := by
      have hk : tw'.retweets = tw.retweets + k := rfl
      unfold totalRetweets
      rw [mapSum_middle, mapSum_middle, hk]
      omega
    have eLik : totalLikes (OP ++ tw' :: OQ) = totalLikes (OP ++ tw :: OQ) := by
      unfold totalLikes
      rw [mapSum_middle, mapSum_middle]
    have hAvgR : avgRetweets (OP ++ tw :: OQ) ≤ avgRetweets (OP ++ tw' :: OQ) := by
      unfold avgRetweets
      rw [elen]
      have hc : (totalRetweets (OP ++ tw :: OQ) : ℚ)
          ≤ (totalRetweets (OP ++ tw' :: OQ) : ℚ) := by exact_mod_cast eRet
      gcongr
    have eAvgL : avgLikes (OP ++ tw' :: OQ) = avgLikes (OP ++ tw :: OQ) := by
      unfold avgLikes
      rw [eLik, elen]
    have hRate : engagementRate profile (OP ++ tw :: OQ)
        ≤ engagementRate profile (OP ++ tw' :: OQ) := by
      unfold engagementRate
      split_ifs with hfo
      · have hE : totalEngagement (OP ++ tw :: OQ)
            ≤ totalEngagement (OP ++ tw' :: OQ) := by
          unfold totalEngagement
          omega
        have hEQ : (totalEngagement (OP ++ tw :: OQ) : ℚ)
            ≤ (totalEngagement (OP ++ tw' :: OQ) : ℚ) := by exact_mod_cast hE
        have hfoQ : (0:ℚ) < (profile.followers : ℚ) := by exact_mod_cast hfo
        rw [elen]
        gcongr
      · exact le_refl 0
    have hEng : engagementScore profile (OP ++ tw :: OQ)
        ≤ engagementScore profile (OP ++ tw' :: OQ) := by
      unfold engagementScore
      refine min_le_min ?_ (le_refl _)
      have s2 := @satTerm_mono 5 30 _ _ (fun z => z * 6)
        (fun a b hab => mul_le_mul_of_nonneg_right hab (by norm_num))
        (fun z hz => by show z * 6 ≤ 30; linarith) hAvgR
      have s3 := @satTerm_mono 1 30 _ _ (fun z => z * 30)
        (fun a b hab => mul_le_mul_of_nonneg_right hab (by norm_num))
        (fun z hz => by show z * 30 ≤ 30; linarith) hRate
      rw [eAvgL]
      linarith
    have eTech : technicalTweetRatio (OP ++ tw' :: OQ)
        = technicalTweetRatio (OP ++ tw :: OQ) := by
      unfold technicalTweetRatio
      rw [filterLength_middle isTechnicalTweet OP OQ tw' tw rfl, elen]
    have eCons : consistencyScore (OP ++ tw' :: OQ)
        = consistencyScore (OP ++ tw :: OQ) := by
      unfold consistencyScore tweetsPerWeek firstCreatedAt lastCreatedAt
      rw [map_middle_congr (fun u : TwitterTweet => u.createdAtMs)
        OP OQ tw' tw rfl, elen]
    have hmain : overallScoreQ profile (OP ++ tw :: OQ)
        ≤ overallScoreQ profile (OP ++ tw' :: OQ) := by
      unfold overallScoreQ technicalContentScore
      rw [eTech, eCons]
      linarith
    exact_mod_cast jsRound_mono hmain

/-- Increasing the profile listed count never decreases the Twitter
overall score. -/
theorem tw_mono_listed (profile : TwitterProfile)
    (tweets : List TwitterTweet) (k : ℕ) :
    (calculateMetrics profile tweets).overallScore
      ≤ (calculateMetrics { profile with listedCount := profile.listedCount + k }
          tweets).overallScore := by
  set profile' : TwitterProfile :=
    { profile with listedCount := profile.listedCount + k } with hp'
  have hfoll : profile'.followers = profile.followers := rfl
  by_cases h : originalTweets tweets = []
  · unfold calculateMetrics
    rw [if_pos (by simp [h]), if_pos (by simp [h]), hfoll]
  · rw [calculateMetrics_nonempty profile tweets h,
      calculateMetrics_nonempty profile' tweets h]
    have hInfl : influenceScore profile ≤ influenceScore profile' := by
      unfold influenceScore
      refine min_le_min ?_ (le_refl _)
      have hlst : profile'.listedCount = profile.listedCount + k := rfl
      have hver : profile'.verified = profile.verified := rfl
      have s2 : (if 100 ≤ profile.listedCount then (30:ℚ)
            else (profile.listedCount : ℚ) / 100 * 30)
          ≤ (if 100 ≤ profile'.listedCount then (30:ℚ)
            else (profile'.listedCount : ℚ) / 100 * 30) := by
        rw [hlst]
        split_ifs with h1 h2 h2
        · exact le_refl _
        · exact absurd (le_trans h1 (Nat.le_add_right _ _)) h2
        · have hl : (profile.listedCount : ℚ) ≤ 100 := by
            have hn : profile.listedCount ≤ 100 := le_of_lt (Nat.lt_of_not_le h1)
            exact_mod_cast hn
          linarith
        · have hl : (profile.listedCount : ℚ) ≤ ((profile.listedCount + k : ℕ) : ℚ) := by
            exact_mod_cast Nat.le_add_right _ _
          linarith
      rw [hfoll, hver]
      linarith
    have hEng : engagementScore profile' (originalTweets tweets)
        = engagementScore profile (originalTweets tweets) := by
      unfold engagementScore engagementRate
      rw [hfoll]
    have hmain : overallScoreQ profile (originalTweets tweets)
        ≤ overallScoreQ profile' (originalTweets tweets) := by
      unfold overallScoreQ
      rw [hEng]
      linarith
    exact_mod_cast jsRound_mono hmain

end TwitterConnector

namespace BlogConnector

theorem blogMetrics_overall_nonempty (profile : BlogProfile)
    (posts : List BlogPost) (h : posts ≠ []) :
    (calculateMetrics profile posts).overallScore
      = ((jsRound (overallScoreQ profile posts) : ℤ) : ℚ) := by
  unfold calculateMetrics
  rw [if_neg (by simpa [List.length_eq_zero] using h)]

/-- Increasing one post's reaction count never decreases the blog overall
score. -/
theorem blog_mono_reactions (profile : BlogProfile)
    (pre post : List BlogPost) (b : BlogPost) (k : ℕ) :
    (calculateMetrics profile (pre ++ b :: post)).overallScore
      ≤ (calculateMetrics profile
          (pre ++ { b with reactions := b.reactions + k } :: post)).overallScore := by
  set b' : BlogPost := { b with reactions := b.reactions + k } with hb'
  rw [blogMetrics_overall_nonempty _ _ (by simp),
    blogMetrics_overall_nonempty _ _ (by simp)]
  have elen : (pre ++ b' :: post).length = (pre ++ b :: post).length := by simp
  have elenpos : (0:ℚ) < ((pre ++ b :: post).length : ℚ) := by
    have h0 : 0 < (pre ++ b :: post).length := by simp
    exact_mod_cast h0
  have eRT : totalReadingTime (pre ++ b' :: post)
      = totalReadingTime (pre ++ b :: post) := by
    unfold totalReadingTime
    rw [mapSum_middle, mapSum_middle]
  have eCover : coverImageCount (pre ++ b' :: post)
      = coverImageCount (pre ++ b :: post) :=
    filterLength_middle _ pre post b' b rfl
  have eExc : goodExcerptCount (pre ++ b' :: post)
      = goodExcerptCount (pre ++ b :: post) :=
    filterLength_middle _ pre post b' b rfl
  have eTags : uniqueTags (pre ++ b' :: post) = uniqueTags (pre ++ b :: post) := by
    unfold uniqueTags
    rw [flatMap_middle_congr (fun q : BlogPost => q.tags) pre post b' b rfl]
  have eMonths : monthsActive (pre ++ b' :: post)
      = monthsActive (pre ++ b :: post) := by
    unfold monthsActive firstPublishedAt lastPublishedAt
    rw [map_middle_congr (fun q : BlogPost => q.publishedAtMs) pre post b' b rfl]
  have eCom : totalComments (pre ++ b' :: post)
      = totalComments (pre ++ b :: post) := by
    unfold totalComments
    rw [mapSum_middle, mapSum_middle]
  have hReact : totalReactions (pre ++ b :: post)
      ≤ totalReactions (pre ++ b' :: post) := by
    have hk : b'.reactions = b.reactions + k := rfl
    unfold totalReactions
    rw [mapSum_middle, mapSum_middle, hk]
    omega
  have eCQ : contentQualityScore (pre ++ b' :: post)
      = contentQualityScore (pre ++ b :: post) := by
    unfold contentQualityScore avgReadingTime
    rw [eRT, eCover, eExc, elen]
  have eCons : consistencyScore (pre ++ b' :: post)
      = consistencyScore (pre ++ b :: post) := by
    unfold consistencyScore postsPerMonth
    rw [eMonths, elen]
  have eTD : topicDiversityScore (pre ++ b' :: post)
      = topicDiversityScore (pre ++ b :: post) := by
    unfold topicDiversityScore
    rw [eTags]
  have hEng : engagementScore profile (pre ++ b :: post)
      ≤ engagementScore profile (pre ++ b' :: post) := by
    unfold engagementScore
    refine min_le_min ?_ (le_refl _)
    have hAvg : (totalReactions (pre ++ b :: post) : ℚ) /
        ((pre ++ b :: post).length : ℚ)
        ≤ (totalReactions (pre ++ b' :: post) : ℚ) /
          ((pre ++ b :: post).length : ℚ) := by
      have hc : (totalReactions (pre ++ b :: post) : ℚ)
          ≤ (totalReactions (pre ++ b' :: post) : ℚ) := by exact_mod_cast hReact
      gcongr
    have s1 := @satTerm_mono 10 40 _ _ (fun z => z * 4)
      (fun a b hab => mul_le_mul_of_nonneg_right hab (by norm_num))
      (fun z hz => by show z * 4 ≤ 40; linarith) hAvg
    rw [eCom, elen]
    linarith
  unfold overallScoreQ
  rw [eCQ, eCons, eTD]
  have := jsRound_mono (show contentQualityScore (pre ++ b :: post) * (30/100) +
      consistencyScore (pre ++ b :: post) * (25/100) +
      engagementScore profile (pre ++ b :: post) * (30/100) +
      topicDiversityScore (pre ++ b :: post) * (15/100)
      ≤ contentQualityScore (pre ++ b :: post) * (30/100) +
      consistencyScore (pre ++ b :: post) * (25/100) +
      engagementScore profile (pre ++ b' :: post) * (30/100) +
      topicDiversityScore (pre ++ b :: post) * (15/100) by linarith)
  exact_mod_cast this

/-- Increasing one post's comment count never decreases the blog overall
score. -/
theorem blog_mono_comments (profile : BlogProfile)
    (pre post : List BlogPost) (b : BlogPost) (k : ℕ) :
    (calculateMetrics profile (pre ++ b :: post)).overallScore
      ≤ (calculateMetrics profile
          (pre ++ { b with comments := b.comments + k } :: post)).overallScore := by
  set b' : BlogPost := { b with comments := b.comments + k } with hb'
  rw [blogMetrics_overall_nonempty _ _ (by simp),
    blogMetrics_overall_nonempty _ _ (by simp)]
  have elen : (pre ++ b' :: post).length = (pre ++ b :: post).length := by simp
  have elenpos : (0:ℚ) < ((pre ++ b :: post).length : ℚ) := by
    have h0 : 0 < (pre ++ b :: post).length := by simp
    exact_mod_cast h0
  have eRT : totalReadingTime (pre ++ b' :: post)
      = totalReadingTime (pre ++ b :: post) := by
    unfold totalReadingTime
    rw [mapSum_middle, mapSum_middle]
  have eCover : coverImageCount (pre ++ b' :: post)
      = coverImageCount (pre ++ b :: post) :=
    filterLength_middle _ pre post b' b rfl
  have eExc : goodExcerptCount (pre ++ b' :: post)
      = goodExcerptCount (pre ++ b :: post) :=
    filterLength_middle _ pre post b' b rfl
  have eTags : uniqueTags (pre ++ b' :: post) = uniqueTags (pre ++ b :: post) := by
    unfold uniqueTags
    rw [flatMap_middle_congr (fun q : BlogPost => q.tags) pre post b' b rfl]
  have eMonths : monthsActive (pre ++ b' :: post)
      = monthsActive (pre ++ b :: post) := by
    unfold monthsActive firstPublishedAt lastPublishedAt
    rw [map_middle_congr (fun q : BlogPost => q.publishedAtMs) pre post b' b rfl]
  have eRea : totalReactions (pre ++ b' :: post)
      = totalReactions (pre ++ b :: post) := by
    unfold totalReactions
    rw [mapSum_middle, mapSum_middle]
  have hCom : totalComments (pre ++ b :: post)
      ≤ totalComments (pre ++ b' :: post) := by
    have hk : b'.comments = b.comments + k := rfl
    unfold totalComments
    rw [mapSum_middle, mapSum_middle, hk]
    omega
  have eCQ : contentQualityScore (pre ++ b' :: post)
      = contentQualityScore (pre ++ b :: post) := by
    unfold contentQualityScore avgReadingTime
    rw [eRT, eCover, eExc, elen]
  have eCons : consistencyScore (pre ++ b' :: post)
      = consistencyScore (pre ++ b :: post) := by
    unfold consistencyScore postsPerMonth
    rw [eMonths, elen]
  have eTD : topicDiversityScore (pre ++ b' :: post)
      = topicDiversityScore (pre ++ b :: post) := by
    unfold topicDiversityScore
    rw [eTags]
  have hEng : engagementScore profile (pre ++ b :: post)
      ≤ engagementScore profile (pre ++ b' :: post) := by
    unfold engagementScore
    refine min_le_min ?_ (le_refl _)
    have hAvg : (totalComments (pre ++ b :: post) : ℚ) /
        ((pre ++ b :: post).length : ℚ)
        ≤ (totalComments (pre ++ b' :: post) : ℚ) /
          ((pre ++ b :: post).length : ℚ) := by
      have hc : (totalComments (pre ++ b :: post) : ℚ)
          ≤ (totalComments (pre ++ b' :: post) : ℚ) := by exact_mod_cast hCom
      gcongr
    have s2 := @satTerm_mono 5 30 _ _ (fun z => z * 6)
      (fun a b hab => mul_le_mul_of_nonneg_right hab (by norm_num))
      (fun z hz => by show z * 6 ≤ 30; linarith) hAvg
    rw [eRea, elen]
    linarith
  unfold overallScoreQ
  rw [eCQ, eCons, eTD]
  have := jsRound_mono (show contentQualityScore (pre ++ b :: post) * (30/100) +
      consistencyScore (pre ++ b :: post) * (25/100) +
      engagementScore profile (pre ++ b :: post) * (30/100) +
      topicDiversityScore (pre ++ b :: post) * (15/100)
      ≤ contentQualityScore (pre ++ b :: post) * (30/100) +
      consistencyScore (pre ++ b :: post) * (25/100) +
      engagementScore profile (pre ++ b' :: post) * (30/100) +
      topicDiversityScore (pre ++ b :: post) * (15/100) by linarith)
  exact_mod_cast this

/-- Increasing one post's reading time never decreases the blog overall
score. -/
theorem blog_mono_readingTime (profile : BlogProfile)
    (pre post : List BlogPost) (b : BlogPost) (k : ℕ) :
    (calculateMetrics profile (pre ++ b :: post)).overallScore
      ≤ (calculateMetrics profile
          (pre ++ { b with readingTime := b.readingTime + k } :: post)).overallScore := by
  set b' : BlogPost := { b with readingTime := b.readingTime + k } with hb'
  rw [blogMetrics_overall_nonempty _ _ (by simp),
    blogMetrics_overall_nonempty _ _ (by simp)]
  have elen : (pre ++ b' :: post).length = (pre ++ b :: post).length := by simp
  have elenpos : (0:ℚ) < ((pre ++ b :: post).length : ℚ) := by
    have h0 : 0 < (pre ++ b :: post).length := by simp
    exact_mod_cast h0
  have hRT : totalReadingTime (pre ++ b :: post)
      ≤ totalReadingTime (pre ++ b' :: post) := by
    have hk : b'.readingTime = b.readingTime + k := rfl
    unfold totalReadingTime
    rw [mapSum_middle, mapSum_middle, hk]
    omega
  have eCover : coverImageCount (pre ++ b' :: post)
      = coverImageCount (pre ++ b :: post) :=
    filterLength_middle _ pre post b' b rfl
  have eExc : goodExcerptCount (pre ++ b' :: post)
      = goodExcerptCount (pre ++ b :: post) :=
    filterLength_middle _ pre post b' b rfl
  have eTags : uniqueTags (pre ++ b' :: post) = uniqueTags (pre ++ b :: post) := by
    unfold uniqueTags
    rw [flatMap_middle_congr (fun q : BlogPost => q.tags) pre post b' b rfl]
  have eMonths : monthsActive (pre ++ b' :: post)
      = monthsActive (pre ++ b :: post) := by
    unfold monthsActive firstPublishedAt lastPublishedAt
    rw [map_middle_congr (fun q : BlogPost => q.publishedAtMs) pre post b' b rfl]
  have eRea : totalReactions (pre ++ b' :: post)
      = totalReactions (pre ++ b :: post) := by
    unfold totalReactions
    rw [mapSum_middle, mapSum_middle]
  have eCom : totalComments (pre ++ b' :: post)
      = totalComments (pre ++ b :: post) := by
    unfold totalComments
    rw [mapSum_middle, mapSum_middle]
  have hCQ : contentQualityScore (pre ++ b :: post)
      ≤ contentQualityScore (pre ++ b' :: post) := by
    unfold contentQualityScore
    refine min_le_min ?_ (le_refl _)
    have hAvg : avgReadingTime (pre ++ b :: post)
        ≤ avgReadingTime (pre ++ b' :: post) := by
      unfold avgReadingTime
      rw [elen]
      have hc : (totalReadingTime (pre ++ b :: post) : ℚ)
          ≤ (totalReadingTime (pre ++ b' :: post) : ℚ) := by exact_mod_cast hRT
      gcongr
    have s1 := @satTerm_mono 3 30 _ _ (fun z => z * 10)
      (fun a b hab => mul_le_mul_of_nonneg_right hab (by norm_num))
      (fun z hz => by show z * 10 ≤ 30; linarith) hAvg
    rw [eCover, eExc, elen]
    linarith
  have eCons : consistencyScore (pre ++ b' :: post)
      = consistencyScore (pre ++ b :: post) := by
    unfold consistencyScore postsPerMonth
    rw [eMonths, elen]
  have eTD : topicDiversityScore (pre ++ b' :: post)
      = topicDiversityScore (pre ++ b :: post) := by
    unfold topicDiversityScore
    rw [eTags]
  have eEng : engagementScore profile (pre ++ b' :: post)
      = engagementScore profile (pre ++ b :: post) := by
    unfold engagementScore
    rw [eRea, eCom, elen]
  unfold overallScoreQ
  rw [eCons, eTD, eEng]
  have := jsRound_mono (show contentQualityScore (pre ++ b :: post) * (30/100) +
      consistencyScore (pre ++ b :: post) * (25/100) +
      engagementScore profile (pre ++ b :: post) * (30/100) +
      topicDiversityScore (pre ++ b :: post) * (15/100)
      ≤ contentQualityScore (pre ++ b' :: post) * (30/100) +
      consistencyScore (pre ++ b :: post) * (25/100) +
      engagementScore profile (pre ++ b :: post) * (30/100) +
      topicDiversityScore (pre ++ b :: post) * (15/100) by linarith)
  exact_mod_cast this

/-- Increasing the blog profile follower count never decreases the blog
overall score. -/
theorem blog_mono_followers (profile : BlogProfile)
    (posts : List BlogPost) (k : ℕ) :
    (calculateMetrics profile posts).overallScore
      ≤ (calculateMetrics { profile with followers := profile.followers + k }
          posts).overallScore := by
  set profile' : BlogProfile :=
    { profile with followers := profile.followers + k } with hp'
  by_cases h : posts = []
  · subst h
    unfold calculateMetrics
    simp
  · rw [blogMetrics_overall_nonempty profile posts h,
      blogMetrics_overall_nonempty profile' posts h]
    have hfl : profile'.followers = profile.followers + k := rfl
    have hEng : engagementScore profile posts ≤ engagementScore profile' posts := by
      unfold engagementScore
      refine min_le_min ?_ (le_refl _)
      have s3 : (if 100 ≤ profile.followers then (30:ℚ)
            else (profile.followers : ℚ) * (3/10))
          ≤ (if 100 ≤ profile'.followers then (30:ℚ)
            else (profile'.followers : ℚ) * (3/10)) := by
        rw [hfl]
        split_ifs with h1 h2 h2
        · exact le_refl _
        · exact absurd (le_trans h1 (Nat.le_add_right _ _)) h2
        · have hl : (profile.followers : ℚ) ≤ 100 := by
            have hn : profile.followers ≤ 100 := le_of_lt (Nat.lt_of_not_le h1)
            exact_mod_cast hn
          linarith
        · have hl : (profile.followers : ℚ) ≤ ((profile.followers + k : ℕ) : ℚ) := by
            exact_mod_cast Nat.le_add_right _ _
          linarith
      linarith
    unfold overallScoreQ
    have := jsRound_mono (show contentQualityScore posts * (30/100) +
        consistencyScore posts * (25/100) +
        engagementScore profile posts * (30/100) +
        topicDiversityScore posts * (15/100)
        ≤ contentQualityScore posts * (30/100) +
        consistencyScore posts * (25/100) +
        engagementScore profile' posts * (30/100) +
        topicDiversityScore posts * (15/100) by linarith)
    exact_mod_cast this

end BlogConnector

namespace LinkedInConnector

theorem liMetrics_overall (now : ℤ × ℤ) (profile : LinkedInProfile)
    (experiences : List LinkedInExperience)
    (education : List LinkedInEducation) (skills : List LinkedInSkill)
    (certifications : List LinkedInCertification) :
    (calculateMetrics now profile experiences education skills
        certifications).overallScore
      = ((jsRound (overallScoreQ now profile experiences education skills)
          : ℤ) : ℚ) := rfl

/-- Increasing the connection count never decreases the LinkedIn overall
score. -/
theorem li_mono_connections (now : ℤ × ℤ) (profile : LinkedInProfile)
    (experiences : List LinkedInExperience)
    (education : List LinkedInEducation) (skills : List LinkedInSkill)
    (certifications : List LinkedInCertification) (k : ℕ) :
    (calculateMetrics now profile experiences education skills
        certifications).overallScore
      ≤ (calculateMetrics now
          { profile with connections := profile.connections + k }
          experiences education skills certifications).overallScore := by
  set profile' : LinkedInProfile :=
    { profile with connections := profile.connections + k } with hp'
  rw [liMetrics_overall, liMetrics_overall]
  have hconn : profile'.connections = profile.connections + k := rfl
  have hNet : networkScore profile ≤ networkScore profile' := by
    unfold networkScore
    refine min_le_min ?_ (le_refl _)
    rw [hconn]
    split_ifs with h1 h2 h2
    · exact le_refl _
    · exact absurd (le_trans h1 (Nat.le_add_right _ _)) h2
    · have hl : (profile.connections : ℚ) ≤ 500 := by
        have hn : profile.connections ≤ 500 := le_of_lt (Nat.lt_of_not_le h1)
        exact_mod_cast hn
      linarith
    · have hl : (profile.connections : ℚ) ≤ ((profile.connections + k : ℕ) : ℚ) := by
        exact_mod_cast Nat.le_add_right _ _
      linarith
  unfold overallScoreQ
  have := jsRound_mono (show experienceScore now experiences * (35/100) +
      educationScore education * (20/100) + skillsScore skills * (25/100) +
      networkScore profile * (20/100)
      ≤ experienceScore now experiences * (35/100) +
      educationScore education * (20/100) + skillsScore skills * (25/100) +
      networkScore profile' * (20/100) by linarith)
  exact_mod_cast this

/-- Increasing one skill's endorsement count never decreases the LinkedIn
overall score. -/
theorem li_mono_endorsements (now : ℤ × ℤ) (profile : LinkedInProfile)
    (experiences : List LinkedInExperience)
    (education : List LinkedInEducation)
    (pre post : List LinkedInSkill) (sk : LinkedInSkill)
    (certifications : List LinkedInCertification) (k : ℕ) :
    (calculateMetrics now profile experiences education
        (pre ++ sk :: post) certifications).overallScore
      ≤ (calculateMetrics now profile experiences education
          (pre ++ { sk with endorsements := sk.endorsements + k } :: post)
          certifications).overallScore := by
  set sk' : LinkedInSkill := { sk with endorsements := sk.endorsements + k } with hsk'
  rw [liMetrics_overall, liMetrics_overall]
  have elen : (pre ++ sk' :: post).length = (pre ++ sk :: post).length := by simp
  have hSum : endorsementSum (pre ++ sk :: post)
      ≤ endorsementSum (pre ++ sk' :: post) := by
    have hk : sk'.endorsements = sk.endorsements + k := rfl
    unfold endorsementSum
    rw [mapSum_middle, mapSum_middle, hk]
    omega
  have hSkills : skillsScore (pre ++ sk :: post) ≤ skillsScore (pre ++ sk' :: post) := by
    unfold skillsScore
    refine min_le_min ?_ (le_refl _)
    rw [elen]
    have s2 : (if 50 ≤ endorsementSum (pre ++ sk :: post) then (50:ℚ)
          else (endorsementSum (pre ++ sk :: post) : ℚ))
        ≤ (if 50 ≤ endorsementSum (pre ++ sk' :: post) then (50:ℚ)
          else (endorsementSum (pre ++ sk' :: post) : ℚ)) := by
      split_ifs with h1 h2 h2
      · exact le_refl _
      · exact absurd (le_trans h1 hSum) h2
      · have hl : (endorsementSum (pre ++ sk :: post) : ℚ) ≤ 50 := by
          have hn : endorsementSum (pre ++ sk :: post) ≤ 50 :=
            le_of_lt (Nat.lt_of_not_le h1)
          exact_mod_cast hn
        linarith
      · exact_mod_cast hSum
    linarith
  unfold overallScoreQ
  have := jsRound_mono (show experienceScore now experiences * (35/100) +
      educationScore education * (20/100) +
      skillsScore (pre ++ sk :: post) * (25/100) +
      networkScore profile * (20/100)
      ≤ experienceScore now experiences * (35/100) +
      educationScore education * (20/100) +
      skillsScore (pre ++ sk' :: post) * (25/100) +
      networkScore profile * (20/100) by linarith)
  exact_mod_cast this

end LinkedInConnector

section ClaimC6

open TwitterConnector

/-- A Twitter profile right at the influence saturation point. -/
def pTwFollowersA : TwitterProfile :=
  { bio := some "bio", followers := 10000, following := 0, tweetCount := 1,
    listedCount := 0, verified := false }

/-- The same profile with twice the followers. -/
def pTwFollowersB : TwitterProfile :=
  { pTwFollowersA with followers := 20000 }

/-- One non-technical original tweet with 50 likes. -/
def tweetFifty : TwitterTweet :=
  { text := "x", createdAtMs := 0, likes := 50, retweets := 0, replies := 0,
    quotes := 0, isRetweet := false, isReply := false, hashtags := [] }

/-- C6 counterexample: increasing a single numeric input — the Twitter
follower count, from 10000 to 20000, all other inputs fixed — strictly
decreases the Twitter overall score (from 27 to 24): the engagement rate
divides by followers while the influence credit is already saturated. -/
theorem twitter_followers_not_monotone :
    pTwFollowersA.followers < pTwFollowersB.followers
    ∧ pTwFollowersB = { pTwFollowersA with followers := pTwFollowersB.followers }
    ∧ (calculateMetrics pTwFollowersB [tweetFifty]).overallScore
        < (calculateMetrics pTwFollowersA [tweetFifty]).overallScore := by
  have htech : isTechnicalTweet tweetFifty = false := by decide
  have horig : originalTweets [tweetFifty] = [tweetFifty] := rfl
  have hne : originalTweets [tweetFifty] ≠ [] := by rw [horig]; simp
  have hlik : tweetFifty.likes = 50 := rfl
  have hret : tweetFifty.retweets = 0 := rfl
  have hA : overallScoreQ pTwFollowersA [tweetFifty] = 53/2 := by
    norm_num [overallScoreQ, engagementScore, technicalContentScore,
      influenceScore, consistencyScore, technicalTweetRatio, avgLikes,
      avgRetweets, engagementRate, totalEngagement, totalLikes, totalRetweets,
      tweetsPerWeek, pTwFollowersA, hlik, hret, htech, min_def,
      List.filter_cons]
  have hB : overallScoreQ pTwFollowersB [tweetFifty] = 97/4 := by
    norm_num [overallScoreQ, engagementScore, technicalContentScore,
      influenceScore, consistencyScore, technicalTweetRatio, avgLikes,
      avgRetweets, engagementRate, totalEngagement, totalLikes, totalRetweets,
      tweetsPerWeek, pTwFollowersA, pTwFollowersB, hlik, hret, htech, min_def,
      List.filter_cons]
  refine ⟨by norm_num [pTwFollowersA, pTwFollowersB], rfl, ?_⟩
  rw [calculateMetrics_nonempty pTwFollowersB [tweetFifty] (by rw [horig]; simp),
    calculateMetrics_nonempty pTwFollowersA [tweetFifty] (by rw [horig]; simp),
    horig, hA, hB]
  have e1 : jsRound (97/4 : ℚ) = 24 := by norm_num [jsRound]
  have e2 : jsRound (53/2 : ℚ) = 27 := by norm_num [jsRound]
  rw [e1, e2]
  norm_num

end ClaimC6

/-- C6 amended: for every numeric count input of the four calculators
except the Twitter follower count, increasing that single input while
holding all others fixed never decreases the family's overall score —
GitHub: a repository's star or fork count, the profile follower count and
the commit/PR/issue/review totals; Twitter: a tweet's like or retweet
count and the profile listed count; blog: a post's reaction, comment or
reading-time count and the profile follower count; LinkedIn: the
connection count and a skill's endorsement count. (The Twitter follower
count is the exception, see the counterexample: it divides the engagement
rate while the influence credit saturates.) -/
theorem calculator_single_input_monotonicity :
    (∀ (profile : GitHubConnector.GitHubUserProfile)
       (stats : GitHubConnector.GitHubContributionStats) (t : ℤ)
       (pre post : List GitHubConnector.GitHubRepository)
       (r : GitHubConnector.GitHubRepository) (k : ℕ),
      (GitHubConnector.calculateMetrics profile (pre ++ r :: post) stats t).overallScore
        ≤ (GitHubConnector.calculateMetrics profile
            (pre ++ { r with stargazersCount := r.stargazersCount + k } :: post)
            stats t).overallScore)
    ∧ (∀ profile stats t pre post (r : GitHubConnector.GitHubRepository) (k : ℕ),
      (GitHubConnector.calculateMetrics profile (pre ++ r :: post) stats t).overallScore
        ≤ (GitHubConnector.calculateMetrics profile
            (pre ++ { r with forksCount := r.forksCount + k } :: post)
            stats t).overallScore)
    ∧ (∀ (profile : GitHubConnector.GitHubUserProfile) repositories stats (t : ℤ) (k : ℕ),
      (GitHubConnector.calculateMetrics profile repositories stats t).overallScore
        ≤ (GitHubConnector.calculateMetrics
            { profile with followers := profile.followers + k }
            repositories stats t).overallScore)
    ∧ (∀ profile repositories (stats : GitHubConnector.GitHubContributionStats)
         (t : ℤ) (k : ℕ),
      (GitHubConnector.calculateMetrics profile repositories stats t).overallScore
        ≤ (GitHubConnector.calculateMetrics profile repositories
            { stats with totalCommits := stats.totalCommits + k } t).overallScore)
    ∧ (∀ profile repositories (stats : GitHubConnector.GitHubContributionStats)
         (t : ℤ) (k : ℕ),
      (GitHubConnector.calculateMetrics profile repositories stats t).overallScore
        ≤ (GitHubConnector.calculateMetrics profile repositories
            { stats with totalPRs := stats.totalPRs + k } t).overallScore)
    ∧ (∀ profile repositories (stats : GitHubConnector.GitHubContributionStats)
         (t : ℤ) (k : ℕ),
      (GitHubConnector.calculateMetrics profile repositories stats t).overallScore
        ≤ (GitHubConnector.calculateMetrics profile repositories
            { stats with totalIssues := stats.totalIssues + k } t).overallScore)
    ∧ (∀ profile repositories (stats : GitHubConnector.GitHubContributionStats)
         (t : ℤ) (k : ℕ),
      (GitHubConnector.calculateMetrics profile repositories stats t).overallScore
        ≤ (GitHubConnector.calculateMetrics profile repositories
            { stats with totalReviews := stats.totalReviews + k } t).overallScore)
    ∧ (∀ (profile : TwitterConnector.TwitterProfile) pre post
         (tw : TwitterConnector.TwitterTweet) (k : ℕ),
      (TwitterConnector.calculateMetrics profile (pre ++ tw :: post)).overallScore
        ≤ (TwitterConnector.calculateMetrics profile
            (pre ++ { tw with likes := tw.likes + k } :: post)).overallScore)
    ∧ (∀ (profile : TwitterConnector.TwitterProfile) pre post
         (tw : TwitterConnector.TwitterTweet) (k : ℕ),
      (TwitterConnector.calculateMetrics profile (pre ++ tw :: post)).overallScore
        ≤ (TwitterConnector.calculateMetrics profile
            (pre ++ { tw with retweets := tw.retweets + k } :: post)).overallScore)
    ∧ (∀ (profile : TwitterConnector.TwitterProfile)
         (tweets : List TwitterConnector.TwitterTweet) (k : ℕ),
      (TwitterConnector.calculateMetrics profile tweets).overallScore
        ≤ (TwitterConnector.calculateMetrics
            { profile with listedCount := profile.listedCount + k }
            tweets).overallScore)
    ∧ (∀ (profile : BlogConnector.BlogProfile) pre post
         (b : BlogConnector.BlogPost) (k : ℕ),
      (BlogConnector.calculateMetrics profile (pre ++ b :: post)).overallScore
        ≤ (BlogConnector.calculateMetrics profile
            (pre ++ { b with reactions := b.reactions + k } :: post)).overallScore)
    ∧ (∀ (profile : BlogConnector.BlogProfile) pre post
         (b : BlogConnector.BlogPost) (k : ℕ),
      (BlogConnector.calculateMetrics profile (pre ++ b :: post)).overallScore
        ≤ (BlogConnector.calculateMetrics profile
            (pre ++ { b with comments := b.comments + k } :: post)).overallScore)
    ∧ (∀ (profile : BlogConnector.BlogProfile) pre post
         (b : BlogConnector.BlogPost) (k : ℕ),
      (BlogConnector.calculateMetrics profile (pre ++ b :: post)).overallScore
        ≤ (BlogConnector.calculateMetrics profile
            (pre ++ { b with readingTime := b.readingTime + k } :: post)).overallScore)
    ∧ (∀ (profile : BlogConnector.BlogProfile)
         (posts : List BlogConnector.BlogPost) (k : ℕ),
      (BlogConnector.calculateMetrics profile posts).overallScore
        ≤ (BlogConnector.calculateMetrics
            { profile with followers := profile.followers + k } posts).overallScore)
    ∧ (∀ (now : ℤ × ℤ) (profile : LinkedInConnector.LinkedInProfile)
         experiences education skills
         (certifications : List LinkedInConnector.LinkedInCertification) (k : ℕ),
      (LinkedInConnector.calculateMetrics now profile experiences education
          skills certifications).overallScore
        ≤ (LinkedInConnector.calculateMetrics now
            { profile with connections := profile.connections + k }
            experiences education skills certifications).overallScore)
    ∧ (∀ (now : ℤ × ℤ) (profile : LinkedInConnector.LinkedInProfile)
         experiences education pre post (sk : LinkedInConnector.LinkedInSkill)
         (certifications : List LinkedInConnector.LinkedInCertification) (k : ℕ),
      (LinkedInConnector.calculateMetrics now profile experiences education
          (pre ++ sk :: post) certifications).overallScore
        ≤ (LinkedInConnector.calculateMetrics now profile experiences education
            (pre ++ { sk with endorsements := sk.endorsements + k } :: post)
            certifications).overallScore) := by
  refine ⟨?_, ?_, ?_, ?_, ?_, ?_, ?_, ?_, ?_, ?_, ?_, ?_, ?_, ?_, ?_, ?_⟩
  · exact fun profile stats t pre post r k =>
      GitHubConnector.gh_mono_stars profile stats t pre post r k
  · exact fun profile stats t pre post r k =>
      GitHubConnector.gh_mono_forks profile stats t pre post r k
  · exact fun profile repositories stats t k =>
      GitHubConnector.gh_mono_followers profile repositories stats t k
  · exact fun profile repositories stats t k =>
      GitHubConnector.gh_mono_commits profile repositories stats t k
  · exact fun profile repositories stats t k =>
      GitHubConnector.gh_mono_prs profile repositories stats t k
  · exact fun profile repositories stats t k =>
      GitHubConnector.gh_mono_issues profile repositories stats t k
  · exact fun profile repositories stats t k =>
      GitHubConnector.gh_mono_reviews profile repositories stats t k
  · exact fun profile pre post tw k =>
      TwitterConnector.tw_mono_likes profile pre post tw k
  · exact fun profile pre post tw k =>
      TwitterConnector.tw_mono_retweets profile pre post tw k
  · exact fun profile tweets k =>
      TwitterConnector.tw_mono_listed profile tweets k
  · exact fun profile pre post b k =>
      BlogConnector.blog_mono_reactions profile pre post b k
  · exact fun profile pre post b k =>
      BlogConnector.blog_mono_comments profile pre post b k
  · exact fun profile pre post b k =>
      BlogConnector.blog_mono_readingTime profile pre post b k
  · exact fun profile posts k =>
      BlogConnector.blog_mono_followers profile posts k
  · exact fun now profile experiences education skills certifications k =>
      LinkedInConnector.li_mono_connections now profile experiences education
        skills certifications k
  · exact fun now profile experiences education pre post sk certifications k =>
      LinkedInConnector.li_mono_endorsements now profile experiences education
        pre post sk certifications k
